import Mathlib

/-!
Verification development for the `rubin_ts_atdome` bridge (Rust).

The Rust source is shallowly embedded as executable Lean definitions:

* `f32` values are modelled as exact rationals (`ℚ`).  `f32` display
  (`format!("{}")`) is modelled by exact shortest decimal rendering, which
  agrees with Rust's output on every value with a finite decimal rendering
  that appears in the properties below; `f32::from_str` is modelled by exact
  decimal parsing.  Floating-point rounding itself is outside the model.
* Rust machine integers (`u8`, `u64`, `usize`) are `ℕ` with explicit bounds
  checks where the source's conversions can overflow.
* The `regex` crate patterns used by the source are embedded through a small
  matching engine (`reFind` below) implementing the crate's leftmost-first
  (Perl-style preference) semantics for precisely the constructs these
  patterns use: literals, single-character classes, greedy `*`/`+`/`?` over a
  character class, alternation of literals, an optional literal group, and
  capturing groups.
* Fallible Rust code is `Except String`/`Option`; a Rust `panic!`/`unwrap`
  failure is `Option.none`.
-/

/-! ## Basic character and digit utilities -/

/-- The class `\d` (also `[0-9]`; our inputs are ASCII). -/
def isDigitC (c : Char) : Bool := '0' ≤ c && c ≤ '9'

/-- The class `[A-Z]`. -/
def isUpperC (c : Char) : Bool := 'A' ≤ c && c ≤ 'Z'

/-- The class `.` of the regex crate: any character except a newline. -/
def isAnyC (c : Char) : Bool := c ≠ '\n'

/-- The literal space character class (for the patterns' ` +`). -/
def isSpaceC (c : Char) : Bool := c = ' '

/-- The literal dot character class (for `\.?`). -/
def isDotC (c : Char) : Bool := c = '.'

/-- Decimal digits of a natural number, most significant first
(fuel-structured so that the kernel can evaluate it). -/
def natDigitsF : Nat → Nat → List Char
  | 0, _ => []
  | fuel + 1, n =>
    if n < 10 then [Nat.digitChar n]
    else natDigitsF fuel (n / 10) ++ [Nat.digitChar (n % 10)]

/-- Decimal digits of a natural number, most significant first. -/
def natDigits (n : Nat) : List Char := natDigitsF (n + 1) n

/-- Value of a list of decimal digit characters (most significant first). -/
def valDigits (ds : List Char) : Nat :=
  ds.foldl (fun a c => a * 10 + (c.toNat - 48)) 0

/-- Length of the maximal run of characters satisfying `p` at the front. -/
def countRun (p : Char → Bool) : List Char → Nat
  | [] => 0
  | c :: cs => if p c then countRun p cs + 1 else 0

/-! ## A tiny regex engine (leftmost-first, greedy, with captures)

`Atom` is a non-capturing regex fragment; `Piece` adds capturing groups.
`matchAtom` returns the list of possible remainders of the input, in the
regex crate's preference order (greedy quantifiers longest first,
alternations in written order).  `reFind` scans start positions left to
right and returns the captures of the preferred match at the leftmost
starting position that matches, exactly as `Regex::captures` does. -/

inductive Atom where
  /-- a literal string -/
  | lit (s : List Char)
  /-- exactly one character of a class -/
  | one (p : Char → Bool)
  /-- greedy `*` over a character class -/
  | star (p : Char → Bool)
  /-- greedy `+` over a character class -/
  | plus (p : Char → Bool)
  /-- greedy `?` over a character class -/
  | optC (p : Char → Bool)
  /-- alternation of literal strings, in preference order -/
  | altLit (ss : List (List Char))

/-- All remainders after matching one atom, in preference order. -/
def matchAtom : Atom → List Char → List (List Char)
  | .lit s, cs => if s.isPrefixOf cs then [cs.drop s.length] else []
  | .one _, [] => []
  | .one p, c :: cs => if p c then [cs] else []
  | .star p, cs =>
    let n := countRun p cs
    (List.range (n + 1)).map (fun k => cs.drop (n - k))
  | .plus p, cs =>
    let n := countRun p cs
    (List.range n).map (fun k => cs.drop (n - k))
  | .optC _, [] => [[]]
  | .optC p, c :: cs => if p c then [cs, c :: cs] else [c :: cs]
  | .altLit ss, cs =>
    ss.filterMap (fun s => if s.isPrefixOf cs then some (cs.drop s.length) else none)

/-- All remainders after matching a sequence of atoms, in preference order. -/
def matchAtoms : List Atom → List Char → List (List Char)
  | [], cs => [cs]
  | a :: as, cs => (matchAtom a cs).flatMap (matchAtoms as)

/-- One element of a pattern: either a non-capturing atom, a capturing
group around a sequence of atoms, or a capturing optional literal
(for `(not )?`). -/
inductive Piece where
  | atom (a : Atom)
  | group (body : List Atom)
  | groupOptLit (s : List Char)

/-- The capture slots a match produces: `none` is an unmatched optional
group, `some s` a group that captured `s`.  Slot `i` is the regex crate's
numbered group `i + 1`. -/
abbrev Caps := List (Option (List Char))

/-- All (remainder, captures) outcomes of one piece, in preference order. -/
def matchPiece : Piece → List Char → List (List Char × Caps)
  | .atom a, cs => (matchAtom a cs).map (fun r => (r, []))
  | .group body, cs =>
    (matchAtoms body cs).map (fun r => (r, [some (cs.take (cs.length - r.length))]))
  | .groupOptLit s, cs =>
    if s.isPrefixOf cs then [(cs.drop s.length, [some s]), (cs, [none])]
    else [(cs, [none])]

/-- All (remainder, captures) outcomes of a pattern, in preference order. -/
def matchPieces : List Piece → List Char → List (List Char × Caps)
  | [], cs => [(cs, [])]
  | p :: ps, cs =>
    (matchPiece p cs).flatMap (fun pr =>
      (matchPieces ps pr.1).map (fun qr => (qr.1, pr.2 ++ qr.2)))

/-- Leftmost-first search: try each start position left to right and return
the captures of the preferred match at the first position that matches. -/
def reFind (pat : List Piece) : List Char → Option Caps
  | [] => ((matchPieces pat []).head?).map (fun r => r.2)
  | c :: cs =>
    match (matchPieces pat (c :: cs)).head? with
    | some r => some r.2
    | none => reFind pat cs

/-- `Regex::captures` on a string. -/
def reFindS (pat : List Piece) (s : String) : Option Caps := reFind pat s.data

/-- `RegexSet`-style `is_match` for one pattern. -/
def reIsMatch (pat : List Piece) (s : String) : Bool := (reFindS pat s).isSome

/-! ## Kernel-computable rational arithmetic

`f32` values are modelled as `ℚ`.  The Batteries arithmetic on `Rat` is
`@[irreducible]`, so the executable definitions below use `mkRat` and
`Rat.blt` directly; `qAdd_eq` etc. (proved later) identify them with the
ordinary field operations on `ℚ`. -/

/-- Addition on `ℚ` by cross-multiplication (kernel-computable). -/
def qAdd (a b : ℚ) : ℚ := mkRat (a.num * b.den + b.num * a.den) (a.den * b.den)

/-- Subtraction on `ℚ` by cross-multiplication (kernel-computable). -/
def qSub (a b : ℚ) : ℚ := mkRat (a.num * b.den - b.num * a.den) (a.den * b.den)

/-- Strict order on `ℚ` (kernel-computable). -/
def qLt (a b : ℚ) : Bool := Rat.blt a b

/-- `f32::abs` on the rational model (kernel-computable). -/
def qAbs (q : ℚ) : ℚ := if qLt q 0 then Rat.neg q else q

/-- The rational `m / 10 ^ e` — a decimal literal of the source such as
`0.12 = qDec 12 2`. -/
def qDec (m : Int) (e : Nat) : ℚ := mkRat m (10 ^ e)

/-! ## Models of the Rust `FromStr` conversions used by the source -/

/-- `str::parse::<T>` for unsigned integers, as used on regex captures:
a non-empty all-digit string whose value fits the width.  (The source
applies it only to `\d+`-shaped captures.) -/
def parseUIntM (bound : Nat) (s : String) : Option Nat :=
  if s.data ≠ [] && s.data.all isDigitC && valDigits s.data < bound then
    some (valDigits s.data)
  else none

/-- `str::parse::<u8>`. -/
def parseU8M (s : String) : Option Nat := parseUIntM (2 ^ 8) s

/-- `str::parse::<u64>`. -/
def parseU64M (s : String) : Option Nat := parseUIntM (2 ^ 64) s

/-- `str::parse::<usize>` (64-bit). -/
def parseUsizeM (s : String) : Option Nat := parseUIntM (2 ^ 64) s

/-- `str::parse::<String>` never fails. -/
def parseStringM (s : String) : Option String := some s

/-- Split a character list at the first `'.'`, if any. -/
def splitAtDot : List Char → (List Char × Option (List Char))
  | [] => ([], none)
  | c :: cs =>
    if c = '.' then ([], some cs)
    else
      let r := splitAtDot cs
      (c :: r.1, r.2)

/-- The unsigned decimal body of `str::parse::<f32>`: digits with an
optional fractional part, at least one digit overall, as the exact rational
`(ip.f) = (ip * 10 ^ |f| + f) / 10 ^ |f|`. -/
def parseDecBody (body : List Char) : Option ℚ :=
  let (ip, fp) := splitAtDot body
  match fp with
  | none =>
    if ip ≠ [] && ip.all isDigitC then some (mkRat (valDigits ip) 1) else none
  | some f =>
    if (ip ≠ [] || f ≠ []) && ip.all isDigitC && f.all isDigitC && f.count '.' = 0 then
      some (mkRat (valDigits ip * 10 ^ f.length + valDigits f) (10 ^ f.length))
    else none

/-- `str::parse::<f32>` modelled as exact decimal parsing to `ℚ`:
an optional sign, digits, and an optional fractional part, with at least
one digit overall.  (The `inf`/`NaN`/exponent forms Rust also accepts never
arise from the captures and displays in this development.) -/
def parseF32M (s : String) : Option ℚ :=
  match s.data with
  | c :: rest =>
    if c = '-' then (parseDecBody rest).map Rat.neg
    else if c = '+' then parseDecBody rest
    else parseDecBody (c :: rest)
  | [] => parseDecBody []

/-! ## Model of `f32` display (`format!("{}", x)`)

Rust's `Display` for `f32` prints the shortest decimal that reads back to
the same value, without an exponent.  On the exact-rational model this is
the (unique) shortest exact decimal rendering, computed here.  `decExpQ`
finds the least number of fractional digits needed. -/

/-- Least `k ≤ 200` with `q * 10 ^ k` integral, i.e. `q.den ∣ 10 ^ k`
(200 fractional digits cover every `f32`). -/
def decExpQ (q : ℚ) : Nat :=
  match (List.range 201).find? (fun k => 10 ^ k % q.den = 0) with
  | some k => k
  | none => 0

/-- Left-pad a digit string with zeros to length `k`. -/
def padZeros (k : Nat) (ds : List Char) : List Char :=
  List.replicate (k - ds.length) '0' ++ ds

/-- Decimal rendering of a non-negative decimal rational. -/
def fmtNN (q : ℚ) : List Char :=
  let k := decExpQ q
  let scaled := q.num.toNat * 10 ^ k / q.den
  if k = 0 then natDigits scaled
  else natDigits (scaled / 10 ^ k) ++ '.' :: padZeros k (natDigits (scaled % 10 ^ k))

/-- `format!("{}", x)` for an `f32` value, on the rational model. -/
def fmtF32 (q : ℚ) : String :=
  if qLt q 0 then String.mk ('-' :: fmtNN (Rat.neg q)) else String.mk (fmtNN q)

/-- `format!("{:03}", x)`: decimal digits left-padded with zeros to width 3. -/
def pad3 (n : Nat) : List Char := padZeros 3 (natDigits n)

/-! ## `ATDomeCmd` (src/atdome_model.rs) -/

/-- The command enumeration of `src/atdome_model.rs`.  The `MoveAz` payload
is the rational model of the Rust `f32`. -/
inductive ATDomeCmd where
  | MoveAz (az : ℚ)
  | CloseShutter
  | OpenShutter
  | StopMotion
  | HomeAzimuth
  | OpenShutterDropoutDoor
  | CloseShutterDropoutDoor
  | OpenShutterMainDoor
  | CloseShutterMainDoor
  | GetStatus
  | Unknown
deriving DecidableEq

/-- `ATDomeCmd::get_command` — the wire encoding. -/
def ATDomeCmd.get_command : ATDomeCmd → String
  | .MoveAz az => fmtF32 az ++ " MV\r\n"
  | .CloseShutter => "SC"
  | .OpenShutter => "SO"
  | .StopMotion => "ST"
  | .HomeAzimuth => "HM"
  | .OpenShutterDropoutDoor => "DN"
  | .CloseShutterDropoutDoor => "UP"
  | .OpenShutterMainDoor => "OP"
  | .CloseShutterMainDoor => "CL"
  | .GetStatus => "+\r\n"
  | .Unknown => ""

/-- `str::trim_end_matches("\r\n")` on the reversed character list:
strip leading `"\n\r"` pairs. -/
def stripRNrev : List Char → List Char
  | c1 :: c2 :: rest =>
    if c1 = '\n' ∧ c2 = '\r' then stripRNrev rest else c1 :: c2 :: rest
  | l => l

/-- `str::trim_end_matches("\r\n")`: repeatedly remove a trailing `"\r\n"`. -/
def trimCrlf (s : String) : String := String.mk (stripRNrev s.data.reverse).reverse

/-! ## `ATDomeCmdRegex` (src/atdome_cmd_regex.rs) -/

/-- `MOVE_AZ_REGEX = r"(?P<az>[0-9]*) MV"`. -/
def moveAzPat : List Piece := [.group [.star isDigitC], .atom (.lit " MV".data)]

/-- `CLOSE_SHUTTER_REGEX = r"SC"`. -/
def closeShutterPat : List Piece := [.atom (.lit "SC".data)]

/-- `OPEN_SHUTTER_REGEX = r"SO"`. -/
def openShutterPat : List Piece := [.atom (.lit "SO".data)]

/-- `STOP_MOTION_REGEX = r"ST"`. -/
def stopMotionPat : List Piece := [.atom (.lit "ST".data)]

/-- `HOME_AZIMUTH_REGEX = r"HM"`. -/
def homeAzimuthCmdPat : List Piece := [.atom (.lit "HM".data)]

/-- `OPEN_SHUTTHER_DROPOUT_REGEX = r"DN"`. -/
def openDropoutPat : List Piece := [.atom (.lit "DN".data)]

/-- `CLOSE_SHUTTHER_DROPOUT_REGEX = r"UP"`. -/
def closeDropoutPat : List Piece := [.atom (.lit "UP".data)]

/-- `OPEN_SHUTTHER_MAIN_DOOR_REGEX = r"OP"`. -/
def openMainDoorPat : List Piece := [.atom (.lit "OP".data)]

/-- `CLOSE_SHUTTHER_MAIN_DOOR_REGEX = r"CL"`. -/
def closeMainDoorPat : List Piece := [.atom (.lit "CL".data)]

/-- `GET_STATUS_REGEX = r"\+"`. -/
def getStatusPat : List Piece := [.atom (.lit "+".data)]

/-- The ten patterns of the `RegexSet`, in source order. -/
def cmdPatterns : List (List Piece) :=
  [moveAzPat, closeShutterPat, openShutterPat, stopMotionPat, homeAzimuthCmdPat,
   openDropoutPat, closeDropoutPat, openMainDoorPat, closeMainDoorPat, getStatusPat]

/-- `ATDomeCmdRegex::get_match_index`: smallest index of a matching pattern. -/
def getMatchIndex (text : String) : Option Nat :=
  (List.range 10).find? (fun i => reIsMatch (cmdPatterns.getD i []) text)

/-- `ATDomeCmdRegex::into_atdome_cmd`.  The `MoveAz` arm calls
`capture["az"].parse::<f32>().unwrap()`; the `unwrap` panic is modelled as
`none` (every other path returns `some`). -/
def into_atdome_cmd (text : String) : Option ATDomeCmd :=
  match getMatchIndex text with
  | some 0 =>
    match reFindS moveAzPat text with
    | some caps =>
      match caps.getD 0 none with
      | some az =>
        match parseF32M (String.mk az) with
        | some azValue => some (.MoveAz azValue)
        | none => none
      | none => none
    | none => none
  | some 9 => some .GetStatus
  | some 1 => some .CloseShutter
  | some 2 => some .OpenShutter
  | some 3 => some .StopMotion
  | some 4 => some .HomeAzimuth
  | some 5 => some .OpenShutterDropoutDoor
  | some 6 => some .CloseShutterDropoutDoor
  | some 7 => some .OpenShutterMainDoor
  | some 8 => some .CloseShutterMainDoor
  | some _ => some .Unknown
  | none => some .Unknown

/-! ## `Status` (src/status.rs)

`f32` fields are `ℚ`; `u8`/`u64`/`usize` fields are `ℕ`. -/

structure Status where
  auto_shutdown_enabled : Bool
  az_home_switch : Bool
  az_pos : ℚ
  azimuth_move_timeout : ℚ
  cloud_sensor_enabled : Bool
  coast : ℚ
  door_move_timeout : ℚ
  dropout_door_encoder_closed : Nat
  dropout_door_encoder_opened : Nat
  dropout_door_pct : ℚ
  dropout_timer : ℚ
  encoder_counts : Nat
  encoder_counts_per_360 : Nat
  estop_active : Bool
  high_speed : ℚ
  home_azimuth : ℚ
  homed : Bool
  last_azimuth_goto : ℚ
  main_door_encoder_closed : Nat
  main_door_encoder_opened : Nat
  main_door_pct : ℚ
  move_code : Nat
  rain_sensor_enabled : Bool
  reversal_delay : ℚ
  scb_link_ok : Bool
  sensor_code : Nat
  tolerance : ℚ
  watchdog_timer : ℚ
deriving DecidableEq

/-- `Status::default()` — Rust `Default`: numeric fields `0`, booleans
`false`. -/
def Status.default : Status where
  auto_shutdown_enabled := false
  az_home_switch := false
  az_pos := 0
  azimuth_move_timeout := 0
  cloud_sensor_enabled := false
  coast := 0
  door_move_timeout := 0
  dropout_door_encoder_closed := 0
  dropout_door_encoder_opened := 0
  dropout_door_pct := 0
  dropout_timer := 0
  encoder_counts := 0
  encoder_counts_per_360 := 0
  estop_active := false
  high_speed := 0
  home_azimuth := 0
  homed := false
  last_azimuth_goto := 0
  main_door_encoder_closed := 0
  main_door_encoder_opened := 0
  main_door_pct := 0
  move_code := 0
  rain_sensor_enabled := false
  reversal_delay := 0
  scb_link_ok := false
  sensor_code := 0
  tolerance := 0
  watchdog_timer := 0

/-- The 27 lines of the `Status::as_string` template, in order; lines 3, 4
and 14 interpolate `az_pos` (`{}`), `move_code` (`{:03}`) and
`last_azimuth_goto` (`{}`). -/
def statusLines (s : Status) : List String :=
  ["MAIN CLOSED 000",
   "DROP CLOSED 000",
   "[OFF] 00",
   "POSN " ++ fmtF32 s.az_pos,
   "-- " ++ String.mk (pad3 s.move_code),
   "Dome not homed",
   "Emergency Stop Active: 0",
   "Top Comm Link OK:    1",
   "Home Azimuth: 10.00",
   "High Speed (degrees):  5.00",
   "Coast (degrees): 0.50",
   "Tolerance (degrees): 1.00",
   "Encoder Counts per 360: 4018143232",
   "Encoder Counts:  111615089",
   "Last Azimuth GoTo: " ++ fmtF32 s.last_azimuth_goto,
   "Azimuth Move Timeout (secs): 120",
   "Rain-Snow enabled:  1",
   "Cloud Sensor enabled: 1",
   "Watchdog Reset Time: 600",
   "Dropout Timer: 5",
   "Reverse Delay: 4",
   "Main Door Encoder Closed: 118449181478",
   "Main Door Encoder Opened: 8287616388",
   "Dropout Encoder Closed: 5669776578",
   "Dropout Encoder Opened: 5710996184",
   "Door Move Timeout (secs): 360",
   "Dome has been homed: False"]

/-- `Status::as_string`: the 27 template lines, each newline-terminated. -/
def Status.as_string (s : Status) : String :=
  String.join ((statusLines s).map (fun l => l ++ "\n"))

/-- Rust `str::split("\n")` on character lists. -/
def splitNlL : List Char → List (List Char)
  | [] => [[]]
  | c :: rest =>
    if c = '\n' then [] :: splitNlL rest
    else
      match splitNlL rest with
      | l :: ls => (c :: l) :: ls
      | [] => [[c]]

/-- Rust `str::split("\n")`. -/
def splitNl (s : String) : List String := (splitNlL s.data).map String.mk

/-! ## `StatusParser` (src/status_parser.rs): the 26 line patterns -/

/-- `MAIN = r"MAIN +[A-Z]+ +(\d+)"`. -/
def mainPat : List Piece :=
  [.atom (.lit "MAIN".data), .atom (.plus isSpaceC), .atom (.plus isUpperC),
   .atom (.plus isSpaceC), .group [.plus isDigitC]]

/-- `DROP = r"DROP +[A-Z]+ +(\d+)"`. -/
def dropPat : List Piece :=
  [.atom (.lit "DROP".data), .atom (.plus isSpaceC), .atom (.plus isUpperC),
   .atom (.plus isSpaceC), .group [.plus isDigitC]]

/-- `AUTO_SHUTDOWN = r"\[(ON|OFF)\] +(\d+)"`. -/
def autoShutdownPat : List Piece :=
  [.atom (.lit "[".data), .group [.altLit ["ON".data, "OFF".data]],
   .atom (.lit "]".data), .atom (.plus isSpaceC), .group [.plus isDigitC]]

/-- The capture `(\d*\.?\d+)` shared by the numeric patterns. -/
def numGroup : Piece := .group [.star isDigitC, .optC isDotC, .plus isDigitC]

/-- `AZ_POS_MATCH = r"(POSN|HOME) +(\d*\.?\d+)"`. -/
def azPosMatchPat : List Piece :=
  [.group [.altLit ["POSN".data, "HOME".data]], .atom (.plus isSpaceC), numGroup]

/-- `MOVE_CODE = r"(?:RL|RR|--) +(\d+)"`. -/
def moveCodePat : List Piece :=
  [.atom (.altLit ["RL".data, "RR".data, "--".data]), .atom (.plus isSpaceC),
   .group [.plus isDigitC]]

/-- `AZ_HOMED = r"Dome (not )?homed"`. -/
def azHomedPat : List Piece :=
  [.atom (.lit "Dome ".data), .groupOptLit "not ".data, .atom (.lit "homed".data)]

/-- `ESTOP_ACTIVE = r"Emergency Stop Active: +(\d)"`. -/
def estopActivePat : List Piece :=
  [.atom (.lit "Emergency Stop Active:".data), .atom (.plus isSpaceC),
   .group [.one isDigitC]]

/-- `SCB_LINK_OK = r"Top Comm Link OK: +(\d)"`. -/
def scbLinkOkPat : List Piece :=
  [.atom (.lit "Top Comm Link OK:".data), .atom (.plus isSpaceC),
   .group [.one isDigitC]]

/-- `HOME_AZIMUTH = r"Home Azimuth: +(\d*\.?\d+)"`. -/
def homeAzimuthPat : List Piece :=
  [.atom (.lit "Home Azimuth:".data), .atom (.plus isSpaceC), numGroup]

/-- `HIGH_SPEED = r"High Speed.+: +(\d*\.?\d+)"`. -/
def highSpeedPat : List Piece :=
  [.atom (.lit "High Speed".data), .atom (.plus isAnyC), .atom (.lit ":".data),
   .atom (.plus isSpaceC), numGroup]

/-- `COAST = r"Coast.+: +(\d*\.?\d+)"`. -/
def coastPat : List Piece :=
  [.atom (.lit "Coast".data), .atom (.plus isAnyC), .atom (.lit ":".data),
   .atom (.plus isSpaceC), numGroup]

/-- `TOLERANCE = r"Tolerance.+: +(\d*\.?\d+)"`. -/
def tolerancePat : List Piece :=
  [.atom (.lit "Tolerance".data), .atom (.plus isAnyC), .atom (.lit ":".data),
   .atom (.plus isSpaceC), numGroup]

/-- `ENCODER_COUNTS_PER_360 = r"Encoder Counts per 360: +(\d+)"`. -/
def encoderCountsPer360Pat : List Piece :=
  [.atom (.lit "Encoder Counts per 360:".data), .atom (.plus isSpaceC),
   .group [.plus isDigitC]]

/-- `ENCODER_COUNTS = r"Encoder Counts: +(\d+)"`. -/
def encoderCountsPat : List Piece :=
  [.atom (.lit "Encoder Counts:".data), .atom (.plus isSpaceC),
   .group [.plus isDigitC]]

/-- `LAST_AZIMUTH_GOTO = r"Last Azimuth GoTo: +(\d*\.?\d+)"`. -/
def lastAzimuthGotoPat : List Piece :=
  [.atom (.lit "Last Azimuth GoTo:".data), .atom (.plus isSpaceC), numGroup]

/-- `AZIMUTH_MOVE_TIMEOUT = r"Azimuth Move Timeout.+: +(\d*\.?\d+)"`. -/
def azimuthMoveTimeoutPat : List Piece :=
  [.atom (.lit "Azimuth Move Timeout".data), .atom (.plus isAnyC),
   .atom (.lit ":".data), .atom (.plus isSpaceC), numGroup]

/-- `RAIN_SENSOR_ENABLED = r"Rain-Snow enabled: +(\d)"`. -/
def rainSensorEnabledPat : List Piece :=
  [.atom (.lit "Rain-Snow enabled:".data), .atom (.plus isSpaceC),
   .group [.one isDigitC]]

/-- `CLOUD_SENSOR_ENABLED = r"Cloud Sensor enabled: +(\d)"`. -/
def cloudSensorEnabledPat : List Piece :=
  [.atom (.lit "Cloud Sensor enabled:".data), .atom (.plus isSpaceC),
   .group [.one isDigitC]]

/-- `WATCHDOG_TIMER = r"Watchdog Reset Time: +(\d*\.?\d+)"`. -/
def watchdogTimerPat : List Piece :=
  [.atom (.lit "Watchdog Reset Time:".data), .atom (.plus isSpaceC), numGroup]

/-- `DROPOUT_TIMER = r"Dropout Timer: +(\d*\.?\d+)"`. -/
def dropoutTimerPat : List Piece :=
  [.atom (.lit "Dropout Timer:".data), .atom (.plus isSpaceC), numGroup]

/-- `REVERSAL_DELAY = r"Reverse Delay: +(\d*\.?\d+)"`. -/
def reversalDelayPat : List Piece :=
  [.atom (.lit "Reverse Delay:".data), .atom (.plus isSpaceC), numGroup]

/-- `MAIN_DOOR_ENCODER_CLOSED = r"Main Door Encoder Closed: +(\d+)"`. -/
def mainDoorEncoderClosedPat : List Piece :=
  [.atom (.lit "Main Door Encoder Closed:".data), .atom (.plus isSpaceC),
   .group [.plus isDigitC]]

/-- `MAIN_DOOR_ENCODER_OPENED = r"Main Door Encoder Opened: +(\d+)"`. -/
def mainDoorEncoderOpenedPat : List Piece :=
  [.atom (.lit "Main Door Encoder Opened:".data), .atom (.plus isSpaceC),
   .group [.plus isDigitC]]

/-- `DROPOUT_DOOR_ENCODER_CLOSED = r"Dropout Encoder Closed: +(\d+)"`. -/
def dropoutDoorEncoderClosedPat : List Piece :=
  [.atom (.lit "Dropout Encoder Closed:".data), .atom (.plus isSpaceC),
   .group [.plus isDigitC]]

/-- `DROPOUT_DOOR_ENCODER_OPENED = r"Dropout Encoder Opened: +(\d+)"`. -/
def dropoutDoorEncoderOpenedPat : List Piece :=
  [.atom (.lit "Dropout Encoder Opened:".data), .atom (.plus isSpaceC),
   .group [.plus isDigitC]]

/-- `DOOR_MOVE_TIMEOUT = r"Door Move Timeout.+: +(\d*\.?\d+)"`. -/
def doorMoveTimeoutPat : List Piece :=
  [.atom (.lit "Door Move Timeout".data), .atom (.plus isAnyC),
   .atom (.lit ":".data), .atom (.plus isSpaceC), numGroup]

/-! ## `StatusParser::unwrap_capture`, `has_group` and `make_status` -/

/-- `StatusParser::unwrap_capture::<T>`: match the regex against the line,
take capture group `extract_group`, and convert it with `T::from_str`. -/
def unwrapCapture {α : Type} (conv : String → Option α) (line : String)
    (pat : List Piece) (extract_group : Nat) : Except String α :=
  match reFindS pat line with
  | none => .error ("Failed to match " ++ line)
  | some caps =>
    match caps.getD (extract_group - 1) none with
    | none => .error "Could not find expected group 1 in captured group"
    | some g =>
      match conv (String.mk g) with
      | some v => .ok v
      | none => .error ("Cannot convert string to return type: " ++ String.mk g)

/-- `StatusParser::has_group`: whether capture group `extract_group`
participated in the match; an error if the regex does not match at all. -/
def hasGroup (line : String) (pat : List Piece) (extract_group : Nat) :
    Except String Bool :=
  match reFindS pat line with
  | none => .error ("Failed to match " ++ line)
  | some caps => .ok (caps.getD (extract_group - 1) none).isSome

/-- `StatusParser::make_status` on the slice of lines. -/
def make_status (lines : List String) : Except String Status := do
  let length := lines.length
  if length ≠ 27 ∧ length ≠ 28 then
    .error ("Got " ++ toString length ++ "; expected 26 or 28.")
  else
    let main_door_pct ← unwrapCapture parseF32M (lines.getD 0 "") mainPat 1
    let dropout_door_pct ← unwrapCapture parseF32M (lines.getD 1 "") dropPat 1
    let auto_shutdown_s ← unwrapCapture parseStringM (lines.getD 2 "") autoShutdownPat 1
    let auto_shutdown_enabled := auto_shutdown_s = "ON"
    let sensor_code ← unwrapCapture parseUsizeM (lines.getD 2 "") autoShutdownPat 2
    let az_home_s ← unwrapCapture parseStringM (lines.getD 3 "") azPosMatchPat 1
    let az_home_switch := az_home_s = "HOME"
    let az_pos ← unwrapCapture parseF32M (lines.getD 3 "") azPosMatchPat 2
    let move_code ← unwrapCapture parseU8M (lines.getD 4 "") moveCodePat 1
    let not_homed ← hasGroup (lines.getD 5 "") azHomedPat 1
    let homed := ! not_homed
    let estop_n ← unwrapCapture parseUsizeM (lines.getD 6 "") estopActivePat 1
    let estop_active := decide (estop_n > 0)
    let scb_n ← unwrapCapture parseUsizeM (lines.getD 7 "") scbLinkOkPat 1
    let scb_link_ok := decide (scb_n > 0)
    let home_azimuth ← unwrapCapture parseF32M (lines.getD 8 "") homeAzimuthPat 1
    let high_speed ← unwrapCapture parseF32M (lines.getD 9 "") highSpeedPat 1
    let coast ← unwrapCapture parseF32M (lines.getD 10 "") coastPat 1
    let tolerance ← unwrapCapture parseF32M (lines.getD 11 "") tolerancePat 1
    let encoder_counts_per_360 ←
      unwrapCapture parseU64M (lines.getD 12 "") encoderCountsPer360Pat 1
    let encoder_counts ← unwrapCapture parseU64M (lines.getD 13 "") encoderCountsPat 1
    let last_azimuth_goto ←
      unwrapCapture parseF32M (lines.getD 14 "") lastAzimuthGotoPat 1
    let azimuth_move_timeout ←
      unwrapCapture parseF32M (lines.getD 15 "") azimuthMoveTimeoutPat 1
    let rain_n ← unwrapCapture parseUsizeM (lines.getD 16 "") rainSensorEnabledPat 1
    let rain_sensor_enabled := decide (rain_n > 0)
    let cloud_n ← unwrapCapture parseUsizeM (lines.getD 17 "") cloudSensorEnabledPat 1
    let cloud_sensor_enabled := decide (cloud_n > 0)
    let watchdog_timer ← unwrapCapture parseF32M (lines.getD 18 "") watchdogTimerPat 1
    let dropout_timer ← unwrapCapture parseF32M (lines.getD 19 "") dropoutTimerPat 1
    let reversal_delay ← unwrapCapture parseF32M (lines.getD 20 "") reversalDelayPat 1
    let main_door_encoder_closed ←
      unwrapCapture parseU64M (lines.getD 21 "") mainDoorEncoderClosedPat 1
    let main_door_encoder_opened ←
      unwrapCapture parseU64M (lines.getD 22 "") mainDoorEncoderOpenedPat 1
    let dropout_door_encoder_closed ←
      unwrapCapture parseU64M (lines.getD 23 "") dropoutDoorEncoderClosedPat 1
    let dropout_door_encoder_opened ←
      unwrapCapture parseU64M (lines.getD 24 "") dropoutDoorEncoderOpenedPat 1
    let door_move_timeout ←
      unwrapCapture parseF32M (lines.getD 25 "") doorMoveTimeoutPat 1
    return { auto_shutdown_enabled, az_home_switch, az_pos, azimuth_move_timeout,
             cloud_sensor_enabled, coast, door_move_timeout,
             dropout_door_encoder_closed, dropout_door_encoder_opened,
             dropout_door_pct, dropout_timer, encoder_counts,
             encoder_counts_per_360, estop_active, high_speed, home_azimuth,
             homed, last_azimuth_goto, main_door_encoder_closed,
             main_door_encoder_opened, main_door_pct, move_code,
             rain_sensor_enabled, reversal_delay, scb_link_ok, sensor_code,
             tolerance, watchdog_timer }

/-! ## `MoveCode` (src/move_code.rs) -/

inductive MoveCode where
  | AzimuthPositive
  | AzimuthNegative
  | MainDoorClosing
  | MainDoorOpening
  | DropoutDoorClosing
  | DropoutDoorOpening
  | AzimuthHoming
  | EStop

/-- `MoveCode::byte_value`. -/
def MoveCode.byte_value : MoveCode → Nat
  | .AzimuthPositive => 0x01
  | .AzimuthNegative => 0x02
  | .MainDoorClosing => 0x04
  | .MainDoorOpening => 0x08
  | .DropoutDoorClosing => 0x10
  | .DropoutDoorOpening => 0x20
  | .AzimuthHoming => 0x40
  | .EStop => 0x80

/-! ## The mock-controller simulator task
(src/mock_controller/mock_controller.rs)

The simulator owns a `Status` and runs 50 ms cycles; each cycle drains at
most one inbound command (`try_recv`) and then advances the azimuth
kinematics.  Azimuth arithmetic is `f32` in the source, modelled here by
the exact rationals (`qAdd`/`qSub`/`qAbs`/`qLt`). -/

/-- The simulator's initial `Status` (the overrides applied to
`Status::default()` at the top of the spawned task). -/
def initialSimStatus : Status :=
  { Status.default with
      scb_link_ok := true
      high_speed := 6
      main_door_encoder_closed := 118449181478
      main_door_encoder_opened := 8287616388
      dropout_door_encoder_closed := 5669776578
      dropout_door_encoder_opened := 5710996184 }

/-- `delta_az_per_cycle = 0.12` (degrees per 50 ms cycle). -/
def delta_az_per_cycle : ℚ := qDec 12 2

/-- The command-handling half of a simulator cycle (the `match
cmd.atdome_cmd` block).  Replies do not affect the owned `Status`, so only
the state effect is modelled. -/
def simApplyCmd (cmd : ATDomeCmd) (status : Status) : Status :=
  match cmd with
  | .GetStatus => status
  | .MoveAz new_az => { status with last_azimuth_goto := new_az }
  | .StopMotion =>
    if status.last_azimuth_goto ≠ status.az_pos then
      let status := { status with last_azimuth_goto := status.az_pos }
      if status.move_code &&& MoveCode.AzimuthPositive.byte_value > 0 then
        { status with move_code := status.move_code ^^^ MoveCode.AzimuthPositive.byte_value }
      else if status.move_code &&& MoveCode.AzimuthNegative.byte_value > 0 then
        { status with move_code := status.move_code ^^^ MoveCode.AzimuthNegative.byte_value }
      else status
    else status
  | .OpenShutter => status
  | .Unknown => status
  | .HomeAzimuth => status
  | .CloseShutter => status
  | .OpenShutterMainDoor => status
  | .CloseShutterMainDoor => status
  | .OpenShutterDropoutDoor => status
  | .CloseShutterDropoutDoor => status

/-- The kinematics half of a simulator cycle (the `if status.az_pos !=
status.last_azimuth_goto && (...)` block). -/
def simKinematics (status : Status) : Status :=
  if status.az_pos ≠ status.last_azimuth_goto ∧
      (status.move_code = 0 ∨
       status.move_code = MoveCode.AzimuthPositive.byte_value ∨
       status.move_code = MoveCode.AzimuthNegative.byte_value) then
    let delta_az := qSub status.last_azimuth_goto status.az_pos
    if qLt delta_az_per_cycle (qAbs delta_az) then
      if qLt 0 delta_az then
        let status :=
          if status.move_code = 0 then
            { status with move_code := status.move_code ^^^ MoveCode.AzimuthPositive.byte_value }
          else status
        { status with az_pos := qAdd status.az_pos delta_az_per_cycle }
      else
        let status :=
          if status.move_code = 0 then
            { status with move_code := status.move_code ^^^ MoveCode.AzimuthNegative.byte_value }
          else status
        { status with az_pos := qSub status.az_pos delta_az_per_cycle }
    else
      let status :=
        if status.move_code &&& MoveCode.AzimuthPositive.byte_value > 0 then
          { status with move_code := status.move_code ^^^ MoveCode.AzimuthPositive.byte_value }
        else if status.move_code &&& MoveCode.AzimuthNegative.byte_value > 0 then
          { status with move_code := status.move_code ^^^ MoveCode.AzimuthNegative.byte_value }
        else status
      { status with move_code := 0, az_pos := status.last_azimuth_goto }
  else status

/-- One 50 ms simulator cycle: drain at most one command, then advance the
kinematics. -/
def simCycle (cmd : Option ATDomeCmd) (status : Status) : Status :=
  simKinematics (match cmd with | some c => simApplyCmd c status | none => status)

/-- The simulator states visible at cycle boundaries: the initial status
and everything reachable from it by cycles (with any command arrivals). -/
inductive SimReachable : Status → Prop where
  | init : SimReachable initialSimStatus
  | step {s : Status} (cmd : Option ATDomeCmd) :
      SimReachable s → SimReachable (simCycle cmd s)

/-! ## The CSC lifecycle state machine (src/atdome_csc.rs)

Each `do_*` handler is modelled by its effect on `summary_state` and the
command acknowledgement it returns.  On the failure paths the handlers
return early with `CommandAck::make_failed(_, 1, msg)` and the state
unchanged; on success they set the new state, publish it, and return
`CommandAck::make_complete`. -/

/-- `salobj::sal_enums::State` (the five lifecycle states in play). -/
inductive CscState where
  | Disabled
  | Enabled
  | Fault
  | Offline
  | Standby
deriving DecidableEq

/-- The Rust `Debug` rendering of a `State` (used by the handlers'
`format!("... {current_state:?} ...")`). -/
def stateName : CscState → String
  | .Disabled => "Disabled"
  | .Enabled => "Enabled"
  | .Fault => "Fault"
  | .Offline => "Offline"
  | .Standby => "Standby"

/-- A command acknowledgement: `CommandAck::make_complete` or
`CommandAck::make_failed(_, code, msg)`. -/
inductive Ack where
  | complete
  | failed (code : Nat) (msg : String)
deriving DecidableEq

/-- `ATDome::do_start` (state effect and ack). -/
def do_start (current_state : CscState) : CscState × Ack :=
  if current_state ≠ .Standby then
    (current_state,
     .failed 1 ("Invalid state transition " ++ stateName current_state ++ " -> Disable."))
  else (.Disabled, .complete)

/-- `ATDome::do_disable` (state effect and ack). -/
def do_disable (current_state : CscState) : CscState × Ack :=
  if current_state ≠ .Enabled then
    (current_state,
     .failed 1 ("Invalid state transition " ++ stateName current_state ++ " -> Disable."))
  else (.Disabled, .complete)

/-- `ATDome::do_enable` (state effect and ack). -/
def do_enable (current_state : CscState) : CscState × Ack :=
  if current_state ≠ .Disabled then
    (current_state,
     .failed 1 ("Invalid state transition " ++ stateName current_state ++ " -> Enabled."))
  else (.Enabled, .complete)

/-- `ATDome::do_standby` (state effect and ack). -/
def do_standby (current_state : CscState) : CscState × Ack :=
  if ¬ (current_state = .Fault ∨ current_state = .Disabled) then
    (current_state,
     .failed 1 ("Invalid state transition " ++ stateName current_state ++ " -> Standby."))
  else (.Standby, .complete)

/-- `ATDome::do_exit_control` (state effect and ack). -/
def do_exit_control (current_state : CscState) : CscState × Ack :=
  if current_state ≠ .Standby then
    (current_state,
     .failed 1 ("Invalid state transition " ++ stateName current_state ++ " -> Offline."))
  else (.Offline, .complete)

/-- The five lifecycle commands. -/
inductive LifeCmd where
  | start
  | enable
  | disable
  | standby
  | exitControl
deriving DecidableEq

/-- The lifecycle handler for each command. -/
def lifecycleStep : LifeCmd → CscState → CscState × Ack
  | .start, s => do_start s
  | .enable, s => do_enable s
  | .disable, s => do_disable s
  | .standby, s => do_standby s
  | .exitControl, s => do_exit_control s

/-- The command names handed to `handle_command!` in `ATDome::run`
(src/atdome_csc.rs line 175).  The macro (an external crate) routes a
received command payload to its `do_*` handler exactly when its name is in
this list. -/
def handledCommands : List String := ["start", "standby", "enable", "disable"]

/-! ### Spec-side definitions for claim C1 (the admitted-transition table
of spec §4.G, for comparison against the code's handlers) -/

/-- The target state each lifecycle command attempts (spec §4.G). -/
def specTargetState : LifeCmd → CscState
  | .start => .Disabled
  | .enable => .Enabled
  | .disable => .Disabled
  | .standby => .Standby
  | .exitControl => .Offline

/-- Whether the (command, source-state) pair is one of the five admitted
transitions (spec §4.G). -/
def specAdmitted : LifeCmd → CscState → Bool
  | .start, s => s = .Standby
  | .enable, s => s = .Disabled
  | .disable, s => s = .Enabled
  | .standby, s => s = .Fault || s = .Disabled
  | .exitControl, s => s = .Standby

/-- The failure message the claim asserts: `"Invalid state transition
<from> -> <to>."` with `<to>` naming the attempted target state. -/
def specFailMsg (c : LifeCmd) (s : CscState) : String :=
  "Invalid state transition " ++ stateName s ++ " -> " ++ stateName (specTargetState c) ++ "."

/-- The `<to>` label the code actually formats into each handler's failure
message (`"Disable"` in `do_start`/`do_disable`, else the target state
name). -/
def codeTargetLabel : LifeCmd → String
  | .start => "Disable"
  | .enable => "Enabled"
  | .disable => "Disable"
  | .standby => "Standby"
  | .exitControl => "Offline"

/-! ## The `DeviceSession` request/reply loop (src/atdome_model.rs)

The loop is driven by `stream.read` results; a session's reads are
modelled as the list of chunks the peer delivers, a `""` chunk being the
`Ok(0)` end-of-file read.  Only the control flow that decides claims C6
and C7 is modelled: how many reads the non-`GetStatus` arm performs before
it delivers `Reply::None`, and what the `GetStatus` arm delivers once its
accumulated reply is parsed. -/

/-- `ATDomeReply` (src/atdome_model.rs). -/
inductive ATDomeReply where
  | none
  | status (s : Status)
deriving DecidableEq

/-- The read loop of the non-`GetStatus` arm (src/atdome_model.rs lines
144-156): keep reading and break only when a read returns 0 bytes; the
number of reads consumed is returned, `Option.none` if the chunk list has
no end-of-file marker (the loop never breaks). -/
def nonStatusReads : List String → Option Nat
  | [] => Option.none
  | c :: rest =>
    if c = "" then some 1
    else (nonStatusReads rest).map (· + 1)

/-- Modelled from the spec (§4.E): the non-`GetStatus` read loop the claim
describes, which stops as soon as a read chunk contains the prompt `>` (or
at end-of-file). -/
def specNonStatusReads : List String → Option Nat
  | [] => Option.none
  | c :: rest =>
    if c = "" || c.data.contains '>' then some 1
    else (specNonStatusReads rest).map (· + 1)

/-- The `GetStatus` arm after its read loop (src/atdome_model.rs lines
130-142): split the accumulated reply on `"\n"`, parse, and send
`Reply::Status` on success; on a parse error only
`println!("Error parsing status: ...")` runs and nothing is sent on the
reply channel (`Option.none` here means no reply is delivered). -/
def getStatusDelivered (status_str : String) : Option ATDomeReply :=
  match make_status (splitNl status_str) with
  | .ok status => some (.status status)
  | .error _ => Option.none

/-- Modelled from the spec (§4.E, §7): the `GetStatus` arm the claim
describes, which delivers `Reply::None` when parsing fails. -/
def specGetStatusDelivered (status_str : String) : Option ATDomeReply :=
  match make_status (splitNl status_str) with
  | .ok status => some (.status status)
  | .error _ => some .none

/-! ### Spec-side definitions for claim C8 (the parse-success
characterization: every line regex matches and every capture converts) -/

/-- Spec wording: the regex matches the line, the numbered group
participated, and its text converts to the target type. -/
def specCaptureOk {α : Type} (conv : String → Option α) (line : String)
    (pat : List Piece) (extract_group : Nat) : Bool :=
  match reFindS pat line with
  | Option.none => false
  | some caps =>
    match caps.getD (extract_group - 1) Option.none with
    | Option.none => false
    | some g => (conv (String.mk g)).isSome

/-- Spec wording: the regex matches the line (no conversion involved;
used for the `Dome (not )?homed` line, whose optional group needs no
conversion). -/
def specLineMatches (line : String) (pat : List Piece) : Bool :=
  (reFindS pat line).isSome

/-- Spec wording for C8: all 26 line regexes (indices 0..25) match their
line and every captured group converts to the target field type. -/
def specLinesOk (lines : List String) : Bool :=
  specCaptureOk parseF32M (lines.getD 0 "") mainPat 1 &&
  specCaptureOk parseF32M (lines.getD 1 "") dropPat 1 &&
  specCaptureOk parseStringM (lines.getD 2 "") autoShutdownPat 1 &&
  specCaptureOk parseUsizeM (lines.getD 2 "") autoShutdownPat 2 &&
  specCaptureOk parseStringM (lines.getD 3 "") azPosMatchPat 1 &&
  specCaptureOk parseF32M (lines.getD 3 "") azPosMatchPat 2 &&
  specCaptureOk parseU8M (lines.getD 4 "") moveCodePat 1 &&
  specLineMatches (lines.getD 5 "") azHomedPat &&
  specCaptureOk parseUsizeM (lines.getD 6 "") estopActivePat 1 &&
  specCaptureOk parseUsizeM (lines.getD 7 "") scbLinkOkPat 1 &&
  specCaptureOk parseF32M (lines.getD 8 "") homeAzimuthPat 1 &&
  specCaptureOk parseF32M (lines.getD 9 "") highSpeedPat 1 &&
  specCaptureOk parseF32M (lines.getD 10 "") coastPat 1 &&
  specCaptureOk parseF32M (lines.getD 11 "") tolerancePat 1 &&
  specCaptureOk parseU64M (lines.getD 12 "") encoderCountsPer360Pat 1 &&
  specCaptureOk parseU64M (lines.getD 13 "") encoderCountsPat 1 &&
  specCaptureOk parseF32M (lines.getD 14 "") lastAzimuthGotoPat 1 &&
  specCaptureOk parseF32M (lines.getD 15 "") azimuthMoveTimeoutPat 1 &&
  specCaptureOk parseUsizeM (lines.getD 16 "") rainSensorEnabledPat 1 &&
  specCaptureOk parseUsizeM (lines.getD 17 "") cloudSensorEnabledPat 1 &&
  specCaptureOk parseF32M (lines.getD 18 "") watchdogTimerPat 1 &&
  specCaptureOk parseF32M (lines.getD 19 "") dropoutTimerPat 1 &&
  specCaptureOk parseF32M (lines.getD 20 "") reversalDelayPat 1 &&
  specCaptureOk parseU64M (lines.getD 21 "") mainDoorEncoderClosedPat 1 &&
  specCaptureOk parseU64M (lines.getD 22 "") mainDoorEncoderOpenedPat 1 &&
  specCaptureOk parseU64M (lines.getD 23 "") dropoutDoorEncoderClosedPat 1 &&
  specCaptureOk parseU64M (lines.getD 24 "") dropoutDoorEncoderOpenedPat 1 &&
  specCaptureOk parseF32M (lines.getD 25 "") doorMoveTimeoutPat 1

/-! ### Domain predicates for the amended claims C2 and C3 -/

/-- The `MoveAz` payload values whose display is a plain digit string:
non-negative integers. -/
def azIsNatB (q : ℚ) : Bool := q.den = 1 && decide (0 ≤ q.num)

/-- The `f32` model values whose display matches `\d*\.?\d+`:
non-negative rationals with a finite decimal rendering (every finite
non-negative `f32` is one). -/
def isF32DecNN (q : ℚ) : Bool := !(qLt q 0) && (10 ^ 200) % q.den = 0

/-- The `Status` the round trip of claim C3 yields: the three live fields
of `s` and the constants the renderer emits for every other field
(`0.50` is `qDec 5 1`). -/
def roundTripExpected (s : Status) : Status where
  auto_shutdown_enabled := false
  az_home_switch := false
  az_pos := s.az_pos
  azimuth_move_timeout := 120
  cloud_sensor_enabled := true
  coast := qDec 5 1
  door_move_timeout := 360
  dropout_door_encoder_closed := 5669776578
  dropout_door_encoder_opened := 5710996184
  dropout_door_pct := 0
  dropout_timer := 5
  encoder_counts := 111615089
  encoder_counts_per_360 := 4018143232
  estop_active := false
  high_speed := 5
  home_azimuth := 10
  homed := false
  last_azimuth_goto := s.last_azimuth_goto
  main_door_encoder_closed := 118449181478
  main_door_encoder_opened := 8287616388
  main_door_pct := 0
  move_code := s.move_code
  rain_sensor_enabled := true
  reversal_delay := 4
  scb_link_ok := true
  sensor_code := 0
  tolerance := 1
  watchdog_timer := 600

/-- The shape of a `\\d*\\.?\\d+` numeral as produced by `fmtNN`: either a
non-empty digit string or `digits.digits` with both parts non-empty.  (Used
by the round-trip lemmas.) -/
def NumShape (d : List Char) : Prop :=
  (d ≠ [] ∧ ∀ c ∈ d, isDigitC c = true) ∨
  (∃ a b, d = a ++ '.' :: b ∧ a ≠ [] ∧ b ≠ [] ∧
    (∀ c ∈ a, isDigitC c = true) ∧ (∀ c ∈ b, isDigitC c = true))

/-! # Theorems -/

/-! ## Bridge lemmas: the kernel-computable rational operations agree with
the ordinary field operations on `ℚ` -/

theorem qLt_eq (a b : ℚ) : qLt a b = true ↔ a < b := Iff.rfl

theorem qAdd_eq (a b : ℚ) : qAdd a b = a + b := (Rat.add_def' a b).symm

theorem qSub_eq (a b : ℚ) : qSub a b = a - b := (Rat.sub_def' a b).symm

theorem qNeg_eq (a : ℚ) : Rat.neg a = -a := rfl

theorem qAbs_eq (q : ℚ) : qAbs q = |q| := by
  rw [qAbs]
  by_cases h : q < 0
  · rw [if_pos ((qLt_eq q 0).mpr h), qNeg_eq, abs_of_neg h]
  · rw [if_neg (fun hc => h ((qLt_eq q 0).mp hc)), abs_of_nonneg (not_lt.mp h)]

/-! ## Claim C1 — the lifecycle handlers -/

/-- C1 (counterexample): the claim asserts the failure message names the
attempted target state, e.g. `do_start` in `Enabled` would say
`"Invalid state transition Enabled -> Disabled."`; the code formats
`"... -> Disable."` instead, so the claimed ack is not the returned one. -/
theorem c1_counterexample :
    lifecycleStep .start .Enabled
      = (.Enabled, .failed 1 "Invalid state transition Enabled -> Disable.") ∧
    specFailMsg .start .Enabled = "Invalid state transition Enabled -> Disabled." ∧
    lifecycleStep .start .Enabled
      ≠ (.Enabled, .failed 1 (specFailMsg .start .Enabled)) := by
  refine ⟨by decide, by decide, by decide⟩

/-- C1 (amended): for every lifecycle command and source state, the handler
succeeds (publishing the target state and a complete ack) exactly on the
five admitted transitions; in every other source state it returns a failed
ack with result code 1 and the message `"Invalid state transition <from> ->
<label>."`, leaving the state unchanged — where `<label>` is the target
state's name for enable/standby/exitControl but the literal `"Disable"`
(not the state name `"Disabled"`) for start and disable. -/
theorem c1_lifecycle_amended (c : LifeCmd) (s : CscState) :
    lifecycleStep c s =
      if specAdmitted c s then (specTargetState c, Ack.complete)
      else (s, Ack.failed 1
        ("Invalid state transition " ++ stateName s ++ " -> " ++ codeTargetLabel c ++ ".")) := by
  cases c <;> cases s <;> decide

/-! ## Claim C5 — the supervisor's command dispatch -/

/-- C5: the dispatch loop of `ATDome::run` hands `handle_command!` only the
four names start/standby/enable/disable; no exitControl payload is ever
routed, even though `do_exit_control` itself would move Standby to Offline
with a complete ack. -/
theorem c5_exit_control_unrouted :
    handledCommands = ["start", "standby", "enable", "disable"] ∧
    "exitControl" ∉ handledCommands ∧
    "exit_control" ∉ handledCommands ∧
    do_exit_control .Standby = (.Offline, .complete) := by
  refine ⟨rfl, by decide, by decide, by decide⟩

/-! ## Claim C6 — the non-`GetStatus` reply path -/

/-- C6: after writing a non-`GetStatus` command, the session's read loop
breaks only on a zero-byte read (EOF).  On a stream that delivers the
prompt `">"` but stays open, the code's loop never completes
(`Option.none`), while the loop the claim describes would deliver after
that first chunk; with an EOF the code consumes every chunk first. -/
theorem c6_nonstatus_reads_until_eof :
    nonStatusReads [">"] = Option.none ∧
    specNonStatusReads [">"] = some 1 ∧
    nonStatusReads [">", "ok", ""] = some 3 ∧
    specNonStatusReads [">", "ok", ""] = some 1 := by
  refine ⟨rfl, by decide, by decide, by decide⟩

/-! ## Claim C7 — the `GetStatus` parse-error path -/

/-- C7: when `make_status` fails on the accumulated reply, the code only
logs the error; nothing is sent on the reply channel (`Option.none`),
while the claim (and spec §4.E/§7) say `Reply::None` is delivered. -/
theorem c7_parse_error_drops_reply :
    getStatusDelivered "garbage>" = Option.none ∧
    specGetStatusDelivered "garbage>" = some .none := by
  refine ⟨by decide, by decide⟩

/-! ## Claim C10 — the command decoder is not total -/

/-- C10: on the input `" MV"` the `MoveAz` pattern matches with an empty
`az` capture, `"".parse::<f32>()` fails, and the decoder's `unwrap`
panics (modelled by `Option.none`) instead of returning `Unknown`. -/
theorem c10_decoder_not_total :
    reFindS moveAzPat " MV" = some [some []] ∧
    parseF32M "" = Option.none ∧
    into_atdome_cmd " MV" = Option.none := by
  refine ⟨by decide, by decide, by decide⟩

/-! ## Claim C2 — command encode/decode round trip -/

/-- C2 (counterexample): the round trip fails for `MoveAz` payloads whose
display is not a plain digit string: `MoveAz(-1)` encodes to `"-1 MV\r\n"`,
and after trimming, the decoder's leftmost match captures `"1"`, returning
`MoveAz(1)` instead. -/
theorem c2_counterexample :
    into_atdome_cmd (trimCrlf ((ATDomeCmd.MoveAz (qDec (-1) 0)).get_command))
      = some (.MoveAz 1) ∧
    qDec (-1) 0 ≠ (1 : ℚ) := by
  refine ⟨by decide, by decide⟩

/-! ## Claim C3 — status render/parse round trip -/

/-- C3 (counterexample): the round trip does not succeed for every
`Status`: with `az_pos = -1` the rendered line `"POSN -1"` fails the
`(POSN|HOME) +(\d*\.?\d+)` regex and `make_status` returns an error. -/
theorem c3_counterexample :
    (make_status (splitNl (Status.as_string
      { Status.default with az_pos := qDec (-1) 0 }))).isOk = false := by
  decide


/-! ## Claim C9 — the azimuth/move-code invariant of the simulator -/

/-- In the simulator the command arm never drives `move_code` outside
`{0, AzimuthPositive, AzimuthNegative}`. -/
theorem simApplyCmd_move_code (c : ATDomeCmd) (t : Status)
    (h : t.move_code = 0 ∨ t.move_code = 1 ∨ t.move_code = 2) :
    (simApplyCmd c t).move_code = 0 ∨ (simApplyCmd c t).move_code = 1 ∨
    (simApplyCmd c t).move_code = 2 := by
  cases c <;> simp only [simApplyCmd] <;> try exact h
  split
  · rcases h with h | h | h <;> simp [MoveCode.byte_value, h]
  · exact h

/-- The kinematics arm restores the cycle-boundary invariant whenever
`move_code ∈ {0, 1, 2}` on entry. -/
theorem simKinematics_inv (t : Status)
    (h : t.move_code = 0 ∨ t.move_code = 1 ∨ t.move_code = 2) :
    ((simKinematics t).move_code = 0 ∨ (simKinematics t).move_code = 1 ∨
      (simKinematics t).move_code = 2) ∧
    ((simKinematics t).move_code = 0 →
      (simKinematics t).az_pos = (simKinematics t).last_azimuth_goto) := by
  have hb : (MoveCode.AzimuthPositive.byte_value = 1 ∧
      MoveCode.AzimuthNegative.byte_value = 2) := ⟨rfl, rfl⟩
  by_cases hg : t.az_pos ≠ t.last_azimuth_goto ∧
      (t.move_code = 0 ∨ t.move_code = MoveCode.AzimuthPositive.byte_value ∨
       t.move_code = MoveCode.AzimuthNegative.byte_value)
  · rw [simKinematics, if_pos hg]
    by_cases hd : qLt delta_az_per_cycle (qAbs (qSub t.last_azimuth_goto t.az_pos)) = true
    · rw [if_pos hd]
      by_cases hp : qLt 0 (qSub t.last_azimuth_goto t.az_pos) = true
      · rw [if_pos hp]
        by_cases h0 : t.move_code = 0
        · simp [h0, MoveCode.byte_value]
        · rw [if_neg h0]
          rcases h with h | h | h
          · exact absurd h h0
          · simp [h, MoveCode.byte_value]
          · simp [h, MoveCode.byte_value]
      · rw [if_neg hp]
        by_cases h0 : t.move_code = 0
        · simp [h0, MoveCode.byte_value]
        · rw [if_neg h0]
          rcases h with h | h | h
          · exact absurd h h0
          · simp [h, MoveCode.byte_value]
          · simp [h, MoveCode.byte_value]
    · rw [if_neg hd]
      exact ⟨Or.inl rfl, fun _ => rfl⟩
  · rw [simKinematics, if_neg hg]
    refine ⟨h, fun h0 => ?_⟩
    by_contra hne
    exact hg ⟨hne, by rw [hb.1, hb.2]; exact h⟩

/-- Every simulator state reachable at a cycle boundary satisfies:
`move_code ∈ {0, 1, 2}`, and if `move_code = 0` then
`az_pos = last_azimuth_goto`. -/
theorem sim_reachable_inv (s : Status) (h : SimReachable s) :
    (s.move_code = 0 ∨ s.move_code = 1 ∨ s.move_code = 2) ∧
    (s.move_code = 0 → s.az_pos = s.last_azimuth_goto) := by
  induction h with
  | init => exact ⟨Or.inl rfl, fun _ => rfl⟩
  | step cmd hs ih =>
    cases cmd with
    | none => exact simKinematics_inv _ ih.1
    | some c => exact simKinematics_inv _ (simApplyCmd_move_code c _ ih.1)

/-- C9: in every simulator state reachable at a cycle boundary, if
`move_code` has neither the AzimuthPositive (0x01) nor the AzimuthNegative
(0x02) bit set, then `az_pos = last_azimuth_goto`. -/
theorem c9_azimuth_move_invariant (s : Status) (h : SimReachable s)
    (hbits : s.move_code &&&
      (MoveCode.AzimuthPositive.byte_value ||| MoveCode.AzimuthNegative.byte_value) = 0) :
    s.az_pos = s.last_azimuth_goto := by
  have inv := sim_reachable_inv s h
  rcases inv.1 with h0 | h1 | h1
  · exact inv.2 h0
  · rw [h1] at hbits; exact absurd hbits (by decide)
  · rw [h1] at hbits; exact absurd hbits (by decide)

/-- C9 (witness): the invariant applied to the initial simulator state. -/
theorem c9_witness : initialSimStatus.az_pos = initialSimStatus.last_azimuth_goto :=
  c9_azimuth_move_invariant initialSimStatus SimReachable.init (by decide)


/-! ## Claim C8 — the `make_status` success characterization -/

theorem exceptOkIsOk {ee a : Type} (x : a) : (Except.ok x : Except ee a).isOk = true := rfl

theorem exceptErrIsOk {ee a : Type} (m : ee) : (Except.error m : Except ee a).isOk = false := rfl

theorem exceptBindOk {ee a b : Type} (x : a) (f : a -> Except ee b) :
    (Except.ok x >>= f) = f x := rfl

theorem exceptBindErr {ee a b : Type} (m : ee) (f : a -> Except ee b) :
    ((Except.error m : Except ee a) >>= f) = Except.error m := rfl

theorem exceptPureIsOk {ee a : Type} (x : a) : (pure x : Except ee a).isOk = true := rfl

/-- `specCaptureOk` is precisely success of the code's `unwrapCapture`. -/
theorem specCaptureOk_isOk {a : Type} (conv : String -> Option a) (line : String)
    (pat : List Piece) (grp : Nat) :
    specCaptureOk conv line pat grp = (unwrapCapture conv line pat grp).isOk := by
  unfold specCaptureOk unwrapCapture
  cases reFindS pat line with
  | none => rfl
  | some caps =>
    dsimp only
    cases caps.getD (grp - 1) Option.none with
    | none => rfl
    | some g =>
      dsimp only
      cases conv (String.mk g) with
      | none => rfl
      | some v => rfl

/-- `specLineMatches` is precisely success of the code's `hasGroup`. -/
theorem specLineMatches_isOk (line : String) (pat : List Piece) :
    specLineMatches line pat = (hasGroup line pat 1).isOk := by
  unfold specLineMatches hasGroup
  cases reFindS pat line with
  | none => rfl
  | some caps => rfl

set_option maxHeartbeats 3200000 in
/-- C8: `make_status` errors on every slice whose length is neither 27 nor
28; on a 27- or 28-line slice it returns `Ok` exactly when all 26 line
regexes match their line and every captured group converts to the target
field type (`specLinesOk`); any miss yields an error and no partial
`Status` exists (`Except` returns either a full `Status` or an error). -/
theorem c8_make_status_characterization (lines : List String) :
    (lines.length ≠ 27 ∧ lines.length ≠ 28 → (make_status lines).isOk = false) ∧
    (lines.length = 27 ∨ lines.length = 28 →
      (make_status lines).isOk = specLinesOk lines) := by
  constructor
  · intro hc
    unfold make_status
    rw [if_pos hc]
    rfl
  · intro h
    have hc : ¬ (lines.length ≠ 27 ∧ lines.length ≠ 28) := by
      rcases h with h | h <;> simp [h]
    unfold make_status
    rw [if_neg hc]
    rcases h0 : unwrapCapture parseF32M (lines.getD 0 "") mainPat 1 with _e | v0
    · rw [exceptBindErr, exceptErrIsOk]
      simp only [specLinesOk, specCaptureOk_isOk, specLineMatches_isOk, exceptOkIsOk, exceptErrIsOk, Bool.true_and, Bool.false_and, Bool.and_false, Bool.and_true, h0]
    rw [exceptBindOk]
    rcases h1 : unwrapCapture parseF32M (lines.getD 1 "") dropPat 1 with _e | v1
    · rw [exceptBindErr, exceptErrIsOk]
      simp only [specLinesOk, specCaptureOk_isOk, specLineMatches_isOk, exceptOkIsOk, exceptErrIsOk, Bool.true_and, Bool.false_and, Bool.and_false, Bool.and_true, h0, h1]
    rw [exceptBindOk]
    rcases h2 : unwrapCapture parseStringM (lines.getD 2 "") autoShutdownPat 1 with _e | v2
    · rw [exceptBindErr, exceptErrIsOk]
      simp only [specLinesOk, specCaptureOk_isOk, specLineMatches_isOk, exceptOkIsOk, exceptErrIsOk, Bool.true_and, Bool.false_and, Bool.and_false, Bool.and_true, h0, h1, h2]
    rw [exceptBindOk]
    rcases h3 : unwrapCapture parseUsizeM (lines.getD 2 "") autoShutdownPat 2 with _e | v3
    · rw [exceptBindErr, exceptErrIsOk]
      simp only [specLinesOk, specCaptureOk_isOk, specLineMatches_isOk, exceptOkIsOk, exceptErrIsOk, Bool.true_and, Bool.false_and, Bool.and_false, Bool.and_true, h0, h1, h2, h3]
    rw [exceptBindOk]
    rcases h4 : unwrapCapture parseStringM (lines.getD 3 "") azPosMatchPat 1 with _e | v4
    · rw [exceptBindErr, exceptErrIsOk]
      simp only [specLinesOk, specCaptureOk_isOk, specLineMatches_isOk, exceptOkIsOk, exceptErrIsOk, Bool.true_and, Bool.false_and, Bool.and_false, Bool.and_true, h0, h1, h2, h3, h4]
    rw [exceptBindOk]
    rcases h5 : unwrapCapture parseF32M (lines.getD 3 "") azPosMatchPat 2 with _e | v5
    · rw [exceptBindErr, exceptErrIsOk]
      simp only [specLinesOk, specCaptureOk_isOk, specLineMatches_isOk, exceptOkIsOk, exceptErrIsOk, Bool.true_and, Bool.false_and, Bool.and_false, Bool.and_true, h0, h1, h2, h3, h4, h5]
    rw [exceptBindOk]
    rcases h6 : unwrapCapture parseU8M (lines.getD 4 "") moveCodePat 1 with _e | v6
    · rw [exceptBindErr, exceptErrIsOk]
      simp only [specLinesOk, specCaptureOk_isOk, specLineMatches_isOk, exceptOkIsOk, exceptErrIsOk, Bool.true_and, Bool.false_and, Bool.and_false, Bool.and_true, h0, h1, h2, h3, h4, h5, h6]
    rw [exceptBindOk]
    rcases h7 : hasGroup (lines.getD 5 "") azHomedPat 1 with _e | v7
    · rw [exceptBindErr, exceptErrIsOk]
      simp only [specLinesOk, specCaptureOk_isOk, specLineMatches_isOk, exceptOkIsOk, exceptErrIsOk, Bool.true_and, Bool.false_and, Bool.and_false, Bool.and_true, h0, h1, h2, h3, h4, h5, h6, h7]
    rw [exceptBindOk]
    rcases h8 : unwrapCapture parseUsizeM (lines.getD 6 "") estopActivePat 1 with _e | v8
    · rw [exceptBindErr, exceptErrIsOk]
      simp only [specLinesOk, specCaptureOk_isOk, specLineMatches_isOk, exceptOkIsOk, exceptErrIsOk, Bool.true_and, Bool.false_and, Bool.and_false, Bool.and_true, h0, h1, h2, h3, h4, h5, h6, h7, h8]
    rw [exceptBindOk]
    rcases h9 : unwrapCapture parseUsizeM (lines.getD 7 "") scbLinkOkPat 1 with _e | v9
    · rw [exceptBindErr, exceptErrIsOk]
      simp only [specLinesOk, specCaptureOk_isOk, specLineMatches_isOk, exceptOkIsOk, exceptErrIsOk, Bool.true_and, Bool.false_and, Bool.and_false, Bool.and_true, h0, h1, h2, h3, h4, h5, h6, h7, h8, h9]
    rw [exceptBindOk]
    rcases h10 : unwrapCapture parseF32M (lines.getD 8 "") homeAzimuthPat 1 with _e | v10
    · rw [exceptBindErr, exceptErrIsOk]
      simp only [specLinesOk, specCaptureOk_isOk, specLineMatches_isOk, exceptOkIsOk, exceptErrIsOk, Bool.true_and, Bool.false_and, Bool.and_false, Bool.and_true, h0, h1, h2, h3, h4, h5, h6, h7, h8, h9, h10]
    rw [exceptBindOk]
    rcases h11 : unwrapCapture parseF32M (lines.getD 9 "") highSpeedPat 1 with _e | v11
    · rw [exceptBindErr, exceptErrIsOk]
      simp only [specLinesOk, specCaptureOk_isOk, specLineMatches_isOk, exceptOkIsOk, exceptErrIsOk, Bool.true_and, Bool.false_and, Bool.and_false, Bool.and_true, h0, h1, h2, h3, h4, h5, h6, h7, h8, h9, h10, h11]
    rw [exceptBindOk]
    rcases h12 : unwrapCapture parseF32M (lines.getD 10 "") coastPat 1 with _e | v12
    · rw [exceptBindErr, exceptErrIsOk]
      simp only [specLinesOk, specCaptureOk_isOk, specLineMatches_isOk, exceptOkIsOk, exceptErrIsOk, Bool.true_and, Bool.false_and, Bool.and_false, Bool.and_true, h0, h1, h2, h3, h4, h5, h6, h7, h8, h9, h10, h11, h12]
    rw [exceptBindOk]
    rcases h13 : unwrapCapture parseF32M (lines.getD 11 "") tolerancePat 1 with _e | v13
    · rw [exceptBindErr, exceptErrIsOk]
      simp only [specLinesOk, specCaptureOk_isOk, specLineMatches_isOk, exceptOkIsOk, exceptErrIsOk, Bool.true_and, Bool.false_and, Bool.and_false, Bool.and_true, h0, h1, h2, h3, h4, h5, h6, h7, h8, h9, h10, h11, h12, h13]
    rw [exceptBindOk]
    rcases h14 : unwrapCapture parseU64M (lines.getD 12 "") encoderCountsPer360Pat 1 with _e | v14
    · rw [exceptBindErr, exceptErrIsOk]
      simp only [specLinesOk, specCaptureOk_isOk, specLineMatches_isOk, exceptOkIsOk, exceptErrIsOk, Bool.true_and, Bool.false_and, Bool.and_false, Bool.and_true, h0, h1, h2, h3, h4, h5, h6, h7, h8, h9, h10, h11, h12, h13, h14]
    rw [exceptBindOk]
    rcases h15 : unwrapCapture parseU64M (lines.getD 13 "") encoderCountsPat 1 with _e | v15
    · rw [exceptBindErr, exceptErrIsOk]
      simp only [specLinesOk, specCaptureOk_isOk, specLineMatches_isOk, exceptOkIsOk, exceptErrIsOk, Bool.true_and, Bool.false_and, Bool.and_false, Bool.and_true, h0, h1, h2, h3, h4, h5, h6, h7, h8, h9, h10, h11, h12, h13, h14, h15]
    rw [exceptBindOk]
    rcases h16 : unwrapCapture parseF32M (lines.getD 14 "") lastAzimuthGotoPat 1 with _e | v16
    · rw [exceptBindErr, exceptErrIsOk]
      simp only [specLinesOk, specCaptureOk_isOk, specLineMatches_isOk, exceptOkIsOk, exceptErrIsOk, Bool.true_and, Bool.false_and, Bool.and_false, Bool.and_true, h0, h1, h2, h3, h4, h5, h6, h7, h8, h9, h10, h11, h12, h13, h14, h15, h16]
    rw [exceptBindOk]
    rcases h17 : unwrapCapture parseF32M (lines.getD 15 "") azimuthMoveTimeoutPat 1 with _e | v17
    · rw [exceptBindErr, exceptErrIsOk]
      simp only [specLinesOk, specCaptureOk_isOk, specLineMatches_isOk, exceptOkIsOk, exceptErrIsOk, Bool.true_and, Bool.false_and, Bool.and_false, Bool.and_true, h0, h1, h2, h3, h4, h5, h6, h7, h8, h9, h10, h11, h12, h13, h14, h15, h16, h17]
    rw [exceptBindOk]
    rcases h18 : unwrapCapture parseUsizeM (lines.getD 16 "") rainSensorEnabledPat 1 with _e | v18
    · rw [exceptBindErr, exceptErrIsOk]
      simp only [specLinesOk, specCaptureOk_isOk, specLineMatches_isOk, exceptOkIsOk, exceptErrIsOk, Bool.true_and, Bool.false_and, Bool.and_false, Bool.and_true, h0, h1, h2, h3, h4, h5, h6, h7, h8, h9, h10, h11, h12, h13, h14, h15, h16, h17, h18]
    rw [exceptBindOk]
    rcases h19 : unwrapCapture parseUsizeM (lines.getD 17 "") cloudSensorEnabledPat 1 with _e | v19
    · rw [exceptBindErr, exceptErrIsOk]
      simp only [specLinesOk, specCaptureOk_isOk, specLineMatches_isOk, exceptOkIsOk, exceptErrIsOk, Bool.true_and, Bool.false_and, Bool.and_false, Bool.and_true, h0, h1, h2, h3, h4, h5, h6, h7, h8, h9, h10, h11, h12, h13, h14, h15, h16, h17, h18, h19]
    rw [exceptBindOk]
    rcases h20 : unwrapCapture parseF32M (lines.getD 18 "") watchdogTimerPat 1 with _e | v20
    · rw [exceptBindErr, exceptErrIsOk]
      simp only [specLinesOk, specCaptureOk_isOk, specLineMatches_isOk, exceptOkIsOk, exceptErrIsOk, Bool.true_and, Bool.false_and, Bool.and_false, Bool.and_true, h0, h1, h2, h3, h4, h5, h6, h7, h8, h9, h10, h11, h12, h13, h14, h15, h16, h17, h18, h19, h20]
    rw [exceptBindOk]
    rcases h21 : unwrapCapture parseF32M (lines.getD 19 "") dropoutTimerPat 1 with _e | v21
    · rw [exceptBindErr, exceptErrIsOk]
      simp only [specLinesOk, specCaptureOk_isOk, specLineMatches_isOk, exceptOkIsOk, exceptErrIsOk, Bool.true_and, Bool.false_and, Bool.and_false, Bool.and_true, h0, h1, h2, h3, h4, h5, h6, h7, h8, h9, h10, h11, h12, h13, h14, h15, h16, h17, h18, h19, h20, h21]
    rw [exceptBindOk]
    rcases h22 : unwrapCapture parseF32M (lines.getD 20 "") reversalDelayPat 1 with _e | v22
    · rw [exceptBindErr, exceptErrIsOk]
      simp only [specLinesOk, specCaptureOk_isOk, specLineMatches_isOk, exceptOkIsOk, exceptErrIsOk, Bool.true_and, Bool.false_and, Bool.and_false, Bool.and_true, h0, h1, h2, h3, h4, h5, h6, h7, h8, h9, h10, h11, h12, h13, h14, h15, h16, h17, h18, h19, h20, h21, h22]
    rw [exceptBindOk]
    rcases h23 : unwrapCapture parseU64M (lines.getD 21 "") mainDoorEncoderClosedPat 1 with _e | v23
    · rw [exceptBindErr, exceptErrIsOk]
      simp only [specLinesOk, specCaptureOk_isOk, specLineMatches_isOk, exceptOkIsOk, exceptErrIsOk, Bool.true_and, Bool.false_and, Bool.and_false, Bool.and_true, h0, h1, h2, h3, h4, h5, h6, h7, h8, h9, h10, h11, h12, h13, h14, h15, h16, h17, h18, h19, h20, h21, h22, h23]
    rw [exceptBindOk]
    rcases h24 : unwrapCapture parseU64M (lines.getD 22 "") mainDoorEncoderOpenedPat 1 with _e | v24
    · rw [exceptBindErr, exceptErrIsOk]
      simp only [specLinesOk, specCaptureOk_isOk, specLineMatches_isOk, exceptOkIsOk, exceptErrIsOk, Bool.true_and, Bool.false_and, Bool.and_false, Bool.and_true, h0, h1, h2, h3, h4, h5, h6, h7, h8, h9, h10, h11, h12, h13, h14, h15, h16, h17, h18, h19, h20, h21, h22, h23, h24]
    rw [exceptBindOk]
    rcases h25 : unwrapCapture parseU64M (lines.getD 23 "") dropoutDoorEncoderClosedPat 1 with _e | v25
    · rw [exceptBindErr, exceptErrIsOk]
      simp only [specLinesOk, specCaptureOk_isOk, specLineMatches_isOk, exceptOkIsOk, exceptErrIsOk, Bool.true_and, Bool.false_and, Bool.and_false, Bool.and_true, h0, h1, h2, h3, h4, h5, h6, h7, h8, h9, h10, h11, h12, h13, h14, h15, h16, h17, h18, h19, h20, h21, h22, h23, h24, h25]
    rw [exceptBindOk]
    rcases h26 : unwrapCapture parseU64M (lines.getD 24 "") dropoutDoorEncoderOpenedPat 1 with _e | v26
    · rw [exceptBindErr, exceptErrIsOk]
      simp only [specLinesOk, specCaptureOk_isOk, specLineMatches_isOk, exceptOkIsOk, exceptErrIsOk, Bool.true_and, Bool.false_and, Bool.and_false, Bool.and_true, h0, h1, h2, h3, h4, h5, h6, h7, h8, h9, h10, h11, h12, h13, h14, h15, h16, h17, h18, h19, h20, h21, h22, h23, h24, h25, h26]
    rw [exceptBindOk]
    rcases h27 : unwrapCapture parseF32M (lines.getD 25 "") doorMoveTimeoutPat 1 with _e | v27
    · rw [exceptBindErr, exceptErrIsOk]
      simp only [specLinesOk, specCaptureOk_isOk, specLineMatches_isOk, exceptOkIsOk, exceptErrIsOk, Bool.true_and, Bool.false_and, Bool.and_false, Bool.and_true, h0, h1, h2, h3, h4, h5, h6, h7, h8, h9, h10, h11, h12, h13, h14, h15, h16, h17, h18, h19, h20, h21, h22, h23, h24, h25, h26, h27]
    rw [exceptBindOk]
    rw [exceptPureIsOk]
    simp only [specLinesOk, specCaptureOk_isOk, specLineMatches_isOk, exceptOkIsOk, exceptErrIsOk, Bool.true_and, Bool.false_and, Bool.and_false, Bool.and_true, h0, h1, h2, h3, h4, h5, h6, h7, h8, h9, h10, h11, h12, h13, h14, h15, h16, h17, h18, h19, h20, h21, h22, h23, h24, h25, h26, h27]

/-- C8 (witness): a 1-line slice is rejected. -/
theorem c8_witness : (make_status ["x"]).isOk = false :=
  (c8_make_status_characterization ["x"]).1 (by decide)


/-! ## Engine lemmas: behaviour of the matcher on numeral-shaped input -/

theorem countRun_head_false {p : Char → Bool} {c : Char} (l : List Char)
    (h : p c = false) : countRun p (c :: l) = 0 := by
  simp [countRun, h]

theorem countRun_append_all {p : Char → Bool} {l : List Char} (r : List Char)
    (h : ∀ c ∈ l, p c = true) : countRun p (l ++ r) = l.length + countRun p r := by
  induction l with
  | nil => simp
  | cons c cs ih =>
    have hc : p c = true := h c (List.mem_cons_self c cs)
    have ih' := ih (fun x hx => h x (List.mem_cons_of_mem c hx))
    simp [countRun, hc, ih']
    omega

theorem countRun_eq_length {p : Char → Bool} {l : List Char}
    (h : ∀ c ∈ l, p c = true) : countRun p l = l.length := by
  have := countRun_append_all (l := l) [] h
  simpa [countRun] using this

theorem isPrefixOf_append_self (l r : List Char) : l.isPrefixOf (l ++ r) = true := by
  induction l with
  | nil => simp [List.isPrefixOf]
  | cons c cs ih => simp [List.isPrefixOf, ih]

/-- The greedy `*` alternatives: longest first, then one fewer, and so on. -/
theorem matchAtom_star_eq (p : Char → Bool) (cs : List Char) :
    matchAtom (.star p) cs =
      cs.drop (countRun p cs) ::
        (List.range (countRun p cs)).map (fun k => cs.drop (countRun p cs - 1 - k)) := by
  show (List.range (countRun p cs + 1)).map (fun k => cs.drop (countRun p cs - k)) = _
  rw [List.range_succ_eq_map, List.map_cons, List.map_map]
  simp only [Nat.sub_zero]
  congr 1
  apply List.map_congr_left
  intro k _
  show cs.drop (countRun p cs - (k + 1)) = cs.drop (countRun p cs - 1 - k)
  congr 1
  omega

/-- The greedy `+` alternatives when the run has length `m + 1`. -/
theorem matchAtom_plus_eq (p : Char → Bool) (cs : List Char) (m : Nat)
    (h : countRun p cs = m + 1) :
    matchAtom (.plus p) cs =
      cs.drop (m + 1) :: (List.range m).map (fun k => cs.drop (m - k)) := by
  show (List.range (countRun p cs)).map (fun k => cs.drop (countRun p cs - k)) = _
  rw [h, List.range_succ_eq_map, List.map_cons, List.map_map]
  simp only [Nat.sub_zero]
  congr 1
  apply List.map_congr_left
  intro k _
  show cs.drop (m + 1 - (k + 1)) = cs.drop (m - k)
  congr 1
  omega

theorem digit_not_dot {c : Char} (h : isDigitC c = true) : isDotC c = false := by
  cases hd : isDotC c with
  | false => rfl
  | true =>
    have : c = '.' := by simpa [isDotC] using hd
    subst this
    simp [isDigitC] at h

theorem digit_not_space {c : Char} (h : isDigitC c = true) : isSpaceC c = false := by
  cases hd : isSpaceC c with
  | false => rfl
  | true =>
    have : c = ' ' := by simpa [isSpaceC] using hd
    subst this
    simp [isDigitC] at h

theorem matchAtoms_cons (a : Atom) (as : List Atom) (cs : List Char) :
    matchAtoms (a :: as) cs = (matchAtom a cs).flatMap (matchAtoms as) := rfl

theorem matchAtoms_optplus_nil :
    matchAtoms [Atom.optC isDotC, Atom.plus isDigitC] [] = [] := rfl

theorem matchAtom_optC_digit {c : Char} (cs : List Char) (hc : isDigitC c = true) :
    matchAtom (.optC isDotC) (c :: cs) = [c :: cs] := by
  show (if isDotC c then [cs, c :: cs] else [c :: cs]) = [c :: cs]
  rw [digit_not_dot hc, if_neg (by simp)]

theorem matchAtoms_plus_all (b : List Char) (hne : b ≠ [])
    (hb : ∀ c ∈ b, isDigitC c = true) :
    ∃ t, matchAtoms [Atom.plus isDigitC] b = [] :: t := by
  obtain ⟨m, hm⟩ : ∃ m, countRun isDigitC b = m + 1 := by
    rw [countRun_eq_length hb]
    cases b with
    | nil => exact absurd rfl hne
    | cons c cs => exact ⟨cs.length, rfl⟩
  have hlen : b.length = m + 1 := by rw [← countRun_eq_length hb, hm]
  rw [matchAtoms_cons, matchAtom_plus_eq _ _ _ hm, List.flatMap_cons]
  rw [show b.drop (m + 1) = [] from by rw [← hlen, List.drop_length]]
  exact ⟨_, rfl⟩

theorem matchAtoms_optplus_digit {c : Char} (hc : isDigitC c = true) :
    matchAtoms [Atom.optC isDotC, Atom.plus isDigitC] [c] = [[]] := by
  rw [matchAtoms_cons, matchAtom_optC_digit [] hc, List.flatMap_cons]
  have h1 : countRun isDigitC [c] = 0 + 1 := by simp [countRun, hc]
  rw [matchAtoms_cons, matchAtom_plus_eq _ _ _ h1]
  rfl

/-- On a non-empty all-digit input the numeral body `\d*\.?\d+` consumes
everything as its preferred match. -/
theorem matchAtoms_num_int (d : List Char) (hne : d ≠ [])
    (hd : ∀ c ∈ d, isDigitC c = true) :
    ∃ t, matchAtoms [Atom.star isDigitC, Atom.optC isDotC, Atom.plus isDigitC] d
      = [] :: t := by
  rcases List.eq_nil_or_concat' d with rfl | ⟨xs, c, rfl⟩
  · exact absurd rfl hne
  have hc : isDigitC c = true := hd c (by simp)
  have hxs : ∀ x ∈ xs, isDigitC x = true := fun x hx => hd x (by simp [hx])
  have hn : countRun isDigitC (xs ++ [c]) = xs.length + 1 := by
    rw [countRun_append_all _ hxs]
    simp [countRun, hc]
  rw [matchAtoms_cons, matchAtom_star_eq, hn]
  simp only [Nat.add_sub_cancel]
  rw [List.flatMap_cons]
  rw [show (xs ++ [c]).drop (xs.length + 1) = [] from by
    rw [show xs.length + 1 = (xs ++ [c]).length by simp, List.drop_length]]
  rw [matchAtoms_optplus_nil, List.nil_append]
  rw [List.range_succ_eq_map, List.map_cons, List.map_map, List.flatMap_cons]
  simp only [Nat.sub_zero, Function.comp]
  rw [List.drop_left, matchAtoms_optplus_digit hc]
  exact ⟨_, rfl⟩

/-- On a `digits.digits` input the numeral body `\d*\.?\d+` consumes
everything as its preferred match. -/
theorem matchAtoms_num_dot (a b : List Char) (hb : b ≠ [])
    (hda : ∀ c ∈ a, isDigitC c = true) (hdb : ∀ c ∈ b, isDigitC c = true) :
    ∃ t, matchAtoms [Atom.star isDigitC, Atom.optC isDotC, Atom.plus isDigitC]
      (a ++ '.' :: b) = [] :: t := by
  have hn : countRun isDigitC (a ++ '.' :: b) = a.length := by
    rw [countRun_append_all _ hda, countRun_head_false _ (by simp [isDigitC])]
    rfl
  rw [matchAtoms_cons, matchAtom_star_eq, hn, List.flatMap_cons, List.drop_left]
  rw [matchAtoms_cons]
  rw [show matchAtom (.optC isDotC) ('.' :: b) = [b, '.' :: b] from by
    simp [matchAtom, isDotC]]
  rw [List.flatMap_cons]
  obtain ⟨t1, ht1⟩ := matchAtoms_plus_all b hb hdb
  rw [ht1]
  exact ⟨_, rfl⟩

/-- On any `NumShape` input the numeral body consumes everything as its
preferred match. -/
theorem matchAtoms_num (d : List Char) (h : NumShape d) :
    ∃ t, matchAtoms [Atom.star isDigitC, Atom.optC isDotC, Atom.plus isDigitC] d
      = [] :: t := by
  rcases h with ⟨hne, hd⟩ | ⟨a, b, rfl, ha, hb, hda, hdb⟩
  · exact matchAtoms_num_int d hne hd
  · exact matchAtoms_num_dot a b hb hda hdb

/-- A `NumShape` numeral starts with a digit. -/
theorem NumShape_head (d : List Char) (h : NumShape d) :
    ∃ c cs, d = c :: cs ∧ isDigitC c = true := by
  rcases h with ⟨hne, hd⟩ | ⟨a, b, rfl, ha, hb, hda, hdb⟩
  · cases d with
    | nil => exact absurd rfl hne
    | cons c cs => exact ⟨c, cs, rfl, hd c (by simp)⟩
  · cases a with
    | nil => exact absurd rfl ha
    | cons c cs => exact ⟨c, cs ++ '.' :: b, rfl, hda c (by simp)⟩

theorem matchPieces_cons (p : Piece) (ps : List Piece) (cs : List Char) :
    matchPieces (p :: ps) cs =
      (matchPiece p cs).flatMap (fun pr =>
        (matchPieces ps pr.1).map (fun qr => (qr.1, pr.2 ++ qr.2))) := rfl

theorem matchAtoms_single (a : Atom) (cs : List Char) :
    matchAtoms [a] cs = matchAtom a cs := by
  rw [matchAtoms_cons]
  exact List.flatMap_singleton' _

theorem matchPiece_group (body : List Atom) (cs : List Char) :
    matchPiece (.group body) cs =
      (matchAtoms body cs).map (fun r => (r, [some (cs.take (cs.length - r.length))])) := rfl

theorem matchPiece_atom (a : Atom) (cs : List Char) :
    matchPiece (.atom a) cs = (matchAtom a cs).map (fun r => (r, ([] : Caps))) := rfl

theorem reFind_of_head {pat : List Piece} {cs : List Char} {r : List Char × Caps}
    {t : List (List Char × Caps)} (h : matchPieces pat cs = r :: t) :
    reFind pat cs = some r.2 := by
  cases cs with
  | nil =>
    show ((matchPieces pat []).head?).map (fun x => x.2) = some r.2
    rw [h]
    rfl
  | cons c cs' =>
    unfold reFind
    rw [h]
    rfl

/-- The preferred match of the numeral group on a `NumShape` input captures
the whole input. -/
theorem matchPiece_numGroup (d : List Char) (h : NumShape d) :
    ∃ t, matchPiece numGroup d = (([] : List Char), [some d]) :: t := by
  obtain ⟨t, ht⟩ := matchAtoms_num d h
  unfold numGroup
  rw [matchPiece_group, ht, List.map_cons]
  simp only [List.length_nil, Nat.sub_zero, List.take_length]
  exact ⟨_, rfl⟩

/-- The suffix ` +(\d*\.?\d+)` on one space followed by a `NumShape`
numeral: preferred match consumes everything, capturing the numeral. -/
theorem matchPieces_sp_num (d : List Char) (h : NumShape d) :
    ∃ t, matchPieces [Piece.atom (.plus isSpaceC), numGroup] (' ' :: d)
      = (([] : List Char), [some d]) :: t := by
  obtain ⟨c, cs, rfl, hc⟩ := NumShape_head d h
  have h0 : countRun isSpaceC (c :: cs) = 0 := countRun_head_false _ (digit_not_space hc)
  have h1 : countRun isSpaceC (' ' :: c :: cs) = 0 + 1 := by
    show (if isSpaceC ' ' then countRun isSpaceC (c :: cs) + 1 else 0) = 0 + 1
    rw [if_pos (by decide), h0]
  rw [matchPieces_cons, matchPiece_atom, matchAtom_plus_eq _ _ _ h1]
  simp only [List.range_zero, List.map_nil, List.drop_succ_cons, List.drop_zero,
    List.map_cons, List.flatMap_cons, List.flatMap_nil, List.append_nil]
  obtain ⟨t2, ht2⟩ := matchPiece_numGroup (c :: cs) h
  rw [matchPieces_cons, ht2]
  simp only [List.flatMap_cons, List.map_cons]
  exact ⟨_, rfl⟩

/-! ## Digit-string lemmas: `natDigits`, `valDigits`, `padZeros` -/

theorem digitChar_isDigit {m : Nat} (h : m < 10) : isDigitC (Nat.digitChar m) = true := by
  interval_cases m <;> decide

theorem digitChar_val {m : Nat} (h : m < 10) : (Nat.digitChar m).toNat - 48 = m := by
  interval_cases m <;> decide

theorem natDigitsF_digits : ∀ fuel n, n < fuel →
    ∀ c ∈ natDigitsF fuel n, isDigitC c = true := by
  intro fuel
  induction fuel with
  | zero => intro n h; omega
  | succ f ih =>
    intro n h c hc
    rw [natDigitsF] at hc
    by_cases h10 : n < 10
    · rw [if_pos h10] at hc
      simp at hc
      subst hc
      exact digitChar_isDigit h10
    · rw [if_neg h10] at hc
      rcases List.mem_append.mp hc with hm | hm
      · have hlt : n / 10 < f := by
          have := Nat.div_lt_self (show 0 < n by omega) (show 1 < 10 by omega)
          omega
        exact ih (n / 10) hlt c hm
      · simp at hm
        subst hm
        exact digitChar_isDigit (Nat.mod_lt n (by omega))

theorem natDigits_digits (n : Nat) : ∀ c ∈ natDigits n, isDigitC c = true :=
  natDigitsF_digits (n + 1) n (Nat.lt_succ_self n)

theorem natDigitsF_ne_nil : ∀ fuel n, n < fuel → natDigitsF fuel n ≠ [] := by
  intro fuel
  induction fuel with
  | zero => intro n h; omega
  | succ f _ =>
    intro n h
    rw [natDigitsF]
    by_cases h10 : n < 10
    · rw [if_pos h10]; simp
    · rw [if_neg h10]; simp

theorem natDigits_ne_nil (n : Nat) : natDigits n ≠ [] :=
  natDigitsF_ne_nil (n + 1) n (Nat.lt_succ_self n)

theorem valDigits_append_one (l : List Char) (c : Char) :
    valDigits (l ++ [c]) = valDigits l * 10 + (c.toNat - 48) := by
  simp [valDigits, List.foldl_append]

theorem valDigits_natDigitsF : ∀ fuel n, n < fuel →
    valDigits (natDigitsF fuel n) = n := by
  intro fuel
  induction fuel with
  | zero => intro n h; omega
  | succ f ih =>
    intro n h
    rw [natDigitsF]
    by_cases h10 : n < 10
    · rw [if_pos h10]
      show valDigits [Nat.digitChar n] = n
      have : valDigits [Nat.digitChar n] = (Nat.digitChar n).toNat - 48 := by
        simp [valDigits]
      rw [this, digitChar_val h10]
    · rw [if_neg h10]
      have hlt : n / 10 < f := by
        have := Nat.div_lt_self (show 0 < n by omega) (show 1 < 10 by omega)
        omega
      rw [valDigits_append_one, ih (n / 10) hlt, digitChar_val (Nat.mod_lt n (by omega))]
      omega

theorem valDigits_natDigits (n : Nat) : valDigits (natDigits n) = n :=
  valDigits_natDigitsF (n + 1) n (Nat.lt_succ_self n)

theorem natDigitsF_length : ∀ fuel n k, n < fuel → 1 ≤ k → n < 10 ^ k →
    (natDigitsF fuel n).length ≤ k := by
  intro fuel
  induction fuel with
  | zero => intro n k h; omega
  | succ f ih =>
    intro n k h hk hnk
    rw [natDigitsF]
    by_cases h10 : n < 10
    · rw [if_pos h10]; simpa using hk
    · rw [if_neg h10]
      have hk2 : 2 ≤ k := by
        by_contra hlt
        have : k = 1 := by omega
        subst this
        simp at hnk
        omega
      have hlt : n / 10 < f := by
        have := Nat.div_lt_self (show 0 < n by omega) (show 1 < 10 by omega)
        omega
      have hdiv : n / 10 < 10 ^ (k - 1) := by
        have hpow : 10 ^ k = 10 ^ (k - 1) * 10 := by
          rw [← Nat.pow_succ]
          congr 1
          omega
        rw [Nat.div_lt_iff_lt_mul (by omega)]
        omega
      have := ih (n / 10) (k - 1) hlt (by omega) hdiv
      simp only [List.length_append, List.length_cons, List.length_nil]
      omega

theorem natDigits_length {n k : Nat} (hk : 1 ≤ k) (h : n < 10 ^ k) :
    (natDigits n).length ≤ k :=
  natDigitsF_length (n + 1) n k (Nat.lt_succ_self n) hk h

theorem valDigits_replicate_zero (m : Nat) (ds : List Char) :
    valDigits (List.replicate m '0' ++ ds) = valDigits ds := by
  induction m with
  | zero => rfl
  | succ mm ih =>
    rw [List.replicate_succ, List.cons_append]
    show valDigits (List.replicate mm '0' ++ ds) = valDigits ds
    exact ih

theorem padZeros_digits (k : Nat) (ds : List Char)
    (h : ∀ c ∈ ds, isDigitC c = true) : ∀ c ∈ padZeros k ds, isDigitC c = true := by
  intro c hc
  rcases List.mem_append.mp hc with hm | hm
  · have : c = '0' := List.eq_of_mem_replicate hm
    subst this
    decide
  · exact h c hm

theorem padZeros_length (k : Nat) (ds : List Char) (h : ds.length ≤ k) :
    (padZeros k ds).length = k := by
  simp [padZeros]
  omega

theorem valDigits_padZeros (k : Nat) (ds : List Char) :
    valDigits (padZeros k ds) = valDigits ds :=
  valDigits_replicate_zero _ _

theorem pad3_digits (n : Nat) : ∀ c ∈ pad3 n, isDigitC c = true :=
  padZeros_digits 3 (natDigits n) (natDigits_digits n)

theorem pad3_ne_nil (n : Nat) : pad3 n ≠ [] := by
  intro h
  have := natDigits_ne_nil n
  rcases List.append_eq_nil.mp h with ⟨-, h2⟩
  exact this h2

theorem valDigits_pad3 (n : Nat) : valDigits (pad3 n) = n := by
  rw [pad3, valDigits_padZeros, valDigits_natDigits]

/-! ## Line-level match lemmas for the symbolic rendered lines -/

theorem matchAtom_altLit_nil (cs : List Char) : matchAtom (.altLit []) cs = [] := rfl

theorem matchAtom_altLit_cons (s : List Char) (ss : List (List Char)) (cs : List Char) :
    matchAtom (.altLit (s :: ss)) cs =
      (if s.isPrefixOf cs then [cs.drop s.length] else []) ++ matchAtom (.altLit ss) cs := by
  show (s :: ss).filterMap
      (fun s2 => if s2.isPrefixOf cs then some (cs.drop s2.length) else none)
    = (if s.isPrefixOf cs then [cs.drop s.length] else []) ++ matchAtom (.altLit ss) cs
  by_cases h : s.isPrefixOf cs = true
  · have hp : s <+: cs := List.isPrefixOf_iff_prefix.mp h
    simp [matchAtom, List.filterMap_cons, h, hp]
  · have hp : ¬ s <+: cs := fun hc => h (List.isPrefixOf_iff_prefix.mpr hc)
    simp [matchAtom, List.filterMap_cons, h, hp]

/-- A first piece with a singleton preferred-match list followed by
` +(group)` on a space and a captured remainder: the whole pattern's
preferred match at position 0. -/
theorem reFind_single_then_sp (p1 g : Piece) (input d : List Char) (caps0 : Caps)
    (hp1 : matchPiece p1 input = [(' ' :: d, caps0)])
    (hsp : ∃ t, matchPieces [Piece.atom (.plus isSpaceC), g] (' ' :: d)
      = (([] : List Char), [some d]) :: t) :
    reFind [p1, Piece.atom (.plus isSpaceC), g] input = some (caps0 ++ [some d]) := by
  obtain ⟨t, ht⟩ := hsp
  have hm : ∃ t2, matchPieces [p1, Piece.atom (.plus isSpaceC), g] input
      = ((([] : List Char), caps0 ++ [some d])) :: t2 := by
    rw [matchPieces_cons, hp1, List.flatMap_cons, List.flatMap_nil, List.append_nil, ht]
    simp only [List.map_cons]
    exact ⟨_, rfl⟩
  obtain ⟨t2, ht2⟩ := hm
  exact reFind_of_head ht2

/-- The `(\d+)` capture group consumes a whole digit string. -/
theorem matchPiece_digitsGroup (d : List Char) (hne : d ≠ [])
    (hd : ∀ c ∈ d, isDigitC c = true) :
    ∃ t, matchPiece (.group [.plus isDigitC]) d = (([] : List Char), [some d]) :: t := by
  obtain ⟨t, ht⟩ := matchAtoms_plus_all d hne hd
  rw [matchPiece_group, ht, List.map_cons]
  simp only [List.length_nil, Nat.sub_zero, List.take_length]
  exact ⟨_, rfl⟩

/-- ` +(...)` where the group's preferred match consumes the whole
remainder `d` (whose first character is a digit). -/
theorem matchPieces_sp_generic (g : Piece) (c : Char) (cs : List Char)
    (hc : isDigitC c = true)
    (hg : ∃ t, matchPiece g (c :: cs) = (([] : List Char), [some (c :: cs)]) :: t) :
    ∃ t, matchPieces [Piece.atom (.plus isSpaceC), g] (' ' :: c :: cs)
      = (([] : List Char), [some (c :: cs)]) :: t := by
  have h0 : countRun isSpaceC (c :: cs) = 0 := countRun_head_false _ (digit_not_space hc)
  have h1 : countRun isSpaceC (' ' :: c :: cs) = 0 + 1 := by
    show (if isSpaceC ' ' then countRun isSpaceC (c :: cs) + 1 else 0) = 0 + 1
    rw [if_pos (by decide), h0]
  rw [matchPieces_cons, matchPiece_atom, matchAtom_plus_eq _ _ _ h1]
  simp only [List.range_zero, List.map_nil, List.drop_succ_cons, List.drop_zero,
    List.map_cons, List.flatMap_cons, List.flatMap_nil, List.append_nil]
  obtain ⟨t2, ht2⟩ := hg
  rw [matchPieces_cons, ht2]
  simp only [List.flatMap_cons, List.map_cons]
  exact ⟨_, rfl⟩

/-- `Last Azimuth GoTo:`-style lines: literal, spaces, numeral capture. -/
theorem reFind_lit_sp_num (L : List Char) (d : List Char) (h : NumShape d) :
    reFind [Piece.atom (.lit L), Piece.atom (.plus isSpaceC), numGroup] (L ++ ' ' :: d)
      = some [some d] := by
  obtain ⟨c, cs, rfl, hc⟩ := NumShape_head d h
  have hp1 : matchPiece (.atom (.lit L)) (L ++ ' ' :: c :: cs)
      = [(' ' :: c :: cs, ([] : Caps))] := by
    rw [matchPiece_atom]
    have hlit : matchAtom (.lit L) (L ++ ' ' :: c :: cs) = [' ' :: c :: cs] := by
      show (if L.isPrefixOf (L ++ ' ' :: c :: cs) then
          [(L ++ ' ' :: c :: cs).drop L.length] else []) = _
      rw [isPrefixOf_append_self]
      simp [List.drop_left]
    rw [hlit]
    rfl
  exact reFind_single_then_sp _ _ _ _ [] hp1
    (matchPieces_sp_generic numGroup c cs hc (matchPiece_numGroup (c :: cs) h))

/-- The `(POSN|HOME) +(\d*\.?\d+)` pattern on a rendered `POSN {az}` line. -/
theorem reFind_azpos (d : List Char) (h : NumShape d) :
    reFind azPosMatchPat ("POSN".data ++ ' ' :: d)
      = some [some "POSN".data, some d] := by
  obtain ⟨c, cs, rfl, hc⟩ := NumShape_head d h
  have hp1 : matchPiece (.group [.altLit ["POSN".data, "HOME".data]])
      ("POSN".data ++ ' ' :: c :: cs)
      = [(' ' :: c :: cs, ([some "POSN".data] : Caps))] := by
    rw [matchPiece_group]
    have halt : matchAtoms [.altLit ["POSN".data, "HOME".data]]
        ("POSN".data ++ ' ' :: c :: cs) = [' ' :: c :: cs] := by
      rw [matchAtoms_single, matchAtom_altLit_cons, matchAtom_altLit_cons,
        matchAtom_altLit_nil]
      have hh : ("HOME".data).isPrefixOf ("POSN".data ++ ' ' :: c :: cs) = false := rfl
      rw [hh, isPrefixOf_append_self]
      simp [List.drop_left]
    rw [halt]
    simp only [List.map_cons, List.map_nil]
    have hlen : ("POSN".data ++ ' ' :: c :: cs).length - (' ' :: c :: cs).length
        = ("POSN".data).length := by simp
    rw [hlen, List.take_left]
  exact reFind_single_then_sp _ _ _ _ [some "POSN".data] hp1
    (matchPieces_sp_generic numGroup c cs hc (matchPiece_numGroup (c :: cs) h))

/-- The `(?:RL|RR|--) +(\d+)` pattern on a rendered `-- {move_code:03}`
line. -/
theorem reFind_movecode (n : Nat) :
    reFind moveCodePat ("--".data ++ ' ' :: pad3 n) = some [some (pad3 n)] := by
  obtain ⟨c, cs, heq, hc⟩ : ∃ c cs, pad3 n = c :: cs ∧ isDigitC c = true := by
    cases hp : pad3 n with
    | nil => exact absurd hp (pad3_ne_nil n)
    | cons c cs =>
      exact ⟨c, cs, rfl, pad3_digits n c (hp ▸ List.mem_cons_self c cs)⟩
  have hg := matchPiece_digitsGroup (pad3 n) (pad3_ne_nil n) (pad3_digits n)
  have hp1 : matchPiece (.atom (.altLit ["RL".data, "RR".data, "--".data]))
      ("--".data ++ ' ' :: pad3 n) = [(' ' :: pad3 n, ([] : Caps))] := by
    rw [matchPiece_atom]
    have halt : matchAtom (.altLit ["RL".data, "RR".data, "--".data])
        ("--".data ++ ' ' :: pad3 n) = [' ' :: pad3 n] := by
      rw [matchAtom_altLit_cons, matchAtom_altLit_cons, matchAtom_altLit_cons,
        matchAtom_altLit_nil]
      have h1 : ("RL".data).isPrefixOf ("--".data ++ ' ' :: pad3 n) = false := rfl
      have h2 : ("RR".data).isPrefixOf ("--".data ++ ' ' :: pad3 n) = false := rfl
      rw [h1, h2, isPrefixOf_append_self]
      simp [List.drop_left]
    rw [halt]
    rfl
  rw [heq] at hp1 hg ⊢
  exact reFind_single_then_sp _ _ _ _ [] hp1
    (matchPieces_sp_generic (.group [.plus isDigitC]) c cs hc hg)

/-- The `(?P<az>[0-9]*) MV` pattern on a rendered `{az} MV` command with a
digit-string payload: the capture is the whole digit string. -/
theorem reFind_moveaz (ds : List Char)
    (hd : ∀ c ∈ ds, isDigitC c = true) :
    reFind moveAzPat (ds ++ " MV".data) = some [some ds] := by
  have h0 : countRun isDigitC (" MV".data) = 0 := countRun_head_false "MV".data (by decide)
  have hn : countRun isDigitC (ds ++ " MV".data) = ds.length := by
    rw [countRun_append_all _ hd, h0]
    rfl
  have hm : ∃ t, matchPieces moveAzPat (ds ++ " MV".data)
      = (([] : List Char), [some ds]) :: t := by
    rw [show moveAzPat = [Piece.group [.star isDigitC], Piece.atom (.lit " MV".data)]
      from rfl]
    rw [matchPieces_cons, matchPiece_group, matchAtoms_single, matchAtom_star_eq, hn,
      List.drop_left]
    simp only [List.map_cons]
    have hlen : (ds ++ " MV".data).length - (" MV".data).length = ds.length := by simp
    rw [hlen, List.take_left, List.flatMap_cons]
    have hrest : matchPieces [Piece.atom (.lit " MV".data)] (" MV".data)
        = [(([] : List Char), ([] : Caps))] := by decide
    rw [hrest]
    simp only [List.map_cons]
    exact ⟨_, rfl⟩
  obtain ⟨t, ht⟩ := hm
  exact reFind_of_head ht

/-! ## Parse/format lemmas: `parseF32M ∘ fmtF32 = some` on its domain -/

theorem digit_ne_dot {c : Char} (h : isDigitC c = true) : c ≠ '.' := by
  intro e
  subst e
  simp [isDigitC] at h

theorem digit_ne_minus {c : Char} (h : isDigitC c = true) : c ≠ '-' := by
  intro e
  subst e
  simp [isDigitC] at h

theorem digit_ne_plus {c : Char} (h : isDigitC c = true) : c ≠ '+' := by
  intro e
  subst e
  simp [isDigitC] at h

theorem splitAtDot_no_dot (l : List Char) (h : ∀ c ∈ l, c ≠ '.') :
    splitAtDot l = (l, Option.none) := by
  induction l with
  | nil => rfl
  | cons c cs ih =>
    rw [splitAtDot, if_neg (h c (List.mem_cons_self c cs))]
    rw [ih (fun x hx => h x (List.mem_cons_of_mem c hx))]

theorem splitAtDot_append (a b : List Char) (h : ∀ c ∈ a, c ≠ '.') :
    splitAtDot (a ++ '.' :: b) = (a, some b) := by
  induction a with
  | nil =>
    show splitAtDot ('.' :: b) = ([], some b)
    rw [splitAtDot, if_pos rfl]
  | cons c cs ih =>
    show splitAtDot (c :: (cs ++ '.' :: b)) = (c :: cs, some b)
    rw [splitAtDot, if_neg (h c (List.mem_cons_self c cs))]
    rw [ih (fun x hx => h x (List.mem_cons_of_mem c hx))]

theorem parseDecBody_digits (ds : List Char) (hne : ds ≠ [])
    (hd : ∀ c ∈ ds, isDigitC c = true) :
    parseDecBody ds = some (mkRat (valDigits ds) 1) := by
  unfold parseDecBody
  rw [splitAtDot_no_dot ds (fun c hc => digit_ne_dot (hd c hc))]
  have hb : (decide (ds ≠ []) && ds.all isDigitC) = true := by
    simp [hne, List.all_eq_true]
    exact hd
  dsimp only
  rw [if_pos hb]

theorem parseDecBody_dot (a b : List Char) (ha : a ≠ [])
    (hda : ∀ c ∈ a, isDigitC c = true) (hdb : ∀ c ∈ b, isDigitC c = true) :
    parseDecBody (a ++ '.' :: b)
      = some (mkRat (valDigits a * 10 ^ b.length + valDigits b) (10 ^ b.length)) := by
  unfold parseDecBody
  rw [splitAtDot_append a b (fun c hc => digit_ne_dot (hda c hc))]
  have hcount : b.count '.' = 0 := by
    rw [List.count_eq_zero]
    intro hmem
    exact digit_ne_dot (hdb '.' hmem) rfl
  have hb : ((decide (a ≠ []) || decide (b ≠ [])) && a.all isDigitC && b.all isDigitC
      && decide (b.count '.' = 0)) = true := by
    simp [ha, List.all_eq_true, hcount]
    exact ⟨hda, hdb⟩
  dsimp only
  rw [if_pos hb]

theorem parseF32M_digit_head (c : Char) (cs : List Char) (hc : isDigitC c = true) :
    parseF32M (String.mk (c :: cs)) = parseDecBody (c :: cs) := by
  unfold parseF32M
  dsimp only
  rw [if_neg (digit_ne_minus hc), if_neg (digit_ne_plus hc)]

theorem decExpQ_spec (q : ℚ) (h : (10 : Nat) ^ 200 % q.den = 0) :
    10 ^ decExpQ q % q.den = 0 := by
  unfold decExpQ
  cases hf : (List.range 201).find? (fun k => 10 ^ k % q.den = 0) with
  | some k =>
    have := List.find?_some hf
    simpa using this
  | none =>
    exfalso
    have hmem := List.find?_eq_none.mp hf 200 (by simp)
    simp at hmem
    norm_num at h
    exact hmem h

theorem decExpQ_den_one (q : ℚ) (h : q.den = 1) : decExpQ q = 0 := by
  unfold decExpQ
  rw [List.range_succ_eq_map]
  rw [List.find?_cons_of_pos _ (by simp [h])]

theorem qLt_false_nonneg {q : ℚ} (h : qLt q 0 = false) : 0 ≤ q := by
  refine not_lt.mp (fun hc => ?_)
  rw [(qLt_eq q 0).mpr hc] at h
  cases h

theorem mkRat_scaled (q : ℚ) (k : Nat) (hk : q.den ∣ 10 ^ k) (hnn : 0 ≤ q.num) :
    mkRat (↑(q.num.toNat * 10 ^ k / q.den)) (10 ^ k) = q := by
  have hden : ((q.den : ℚ)) ≠ 0 := by exact_mod_cast q.den_ne_zero
  have hpow : (((10 ^ k : ℕ)) : ℚ) ≠ 0 := Nat.cast_ne_zero.mpr (by positivity)
  have hdvd2 : q.den ∣ q.num.toNat * 10 ^ k := Dvd.dvd.mul_left hk _
  have hscaled : q.num.toNat * 10 ^ k / q.den * q.den = q.num.toNat * 10 ^ k :=
    Nat.div_mul_cancel hdvd2
  have htn : ((q.num.toNat : ℕ) : ℚ) = (q.num : ℚ) := by
    exact_mod_cast congrArg (fun z : ℤ => (z : ℚ)) (Int.toNat_of_nonneg hnn)
  rw [Rat.mkRat_eq_div]
  rw [div_eq_iff hpow]
  apply mul_right_cancel₀ hden
  have hq : (((q.num.toNat * 10 ^ k / q.den : ℕ) : ℤ) : ℚ) * (q.den : ℚ)
      = ((q.num.toNat * 10 ^ k : ℕ) : ℚ) := by
    exact_mod_cast hscaled
  rw [hq]
  have hsplit : ((q.num.toNat * 10 ^ k : ℕ) : ℚ) = (q.num : ℚ) * ((10 ^ k : ℕ) : ℚ) := by
    push_cast
    rw [show ((q.num.toNat : ℕ) : ℚ) = (q.num : ℚ) from htn]
  rw [hsplit]
  have hqden : q * (q.den : ℚ) = (q.num : ℚ) := by
    have h0 := Rat.num_div_den q
    calc q * (q.den : ℚ) = (q.num : ℚ) / (q.den : ℚ) * (q.den : ℚ) := by rw [h0]
      _ = (q.num : ℚ) := div_mul_cancel₀ _ hden
  rw [show q * ((10 ^ k : ℕ) : ℚ) * (q.den : ℚ)
      = q * (q.den : ℚ) * ((10 ^ k : ℕ) : ℚ) from by ring, hqden]

theorem isF32DecNN_parts {q : ℚ} (h : isF32DecNN q = true) :
    qLt q 0 = false ∧ 10 ^ 200 % q.den = 0 := by
  unfold isF32DecNN at h
  rcases Bool.and_eq_true_iff.mp h with ⟨h1, h2⟩
  exact ⟨by simpa using h1, of_decide_eq_true h2⟩

/-- The rendered form of a model `f32` value in `[0, ∞)` is a `NumShape`
numeral that parses back to exactly the same rational. -/
theorem fmtNN_num (q : ℚ) (h : isF32DecNN q = true) :
    NumShape (fmtNN q) ∧ parseDecBody (fmtNN q) = some q := by
  obtain ⟨hz, hmod⟩ := isF32DecNN_parts h
  have hdvd : q.den ∣ 10 ^ decExpQ q := Nat.dvd_of_mod_eq_zero (decExpQ_spec q hmod)
  have hnn : 0 ≤ q.num := Rat.num_nonneg.mpr (qLt_false_nonneg hz)
  by_cases hk0 : decExpQ q = 0
  · have hfmt : fmtNN q = natDigits (q.num.toNat * 10 ^ decExpQ q / q.den) := by
      unfold fmtNN
      rw [if_pos hk0]
    constructor
    · rw [hfmt]
      exact Or.inl ⟨natDigits_ne_nil _, natDigits_digits _⟩
    · rw [hfmt, parseDecBody_digits _ (natDigits_ne_nil _) (natDigits_digits _),
        valDigits_natDigits]
      have hval := mkRat_scaled q (decExpQ q) hdvd hnn
      rw [hk0] at hval ⊢
      exact congrArg some hval
  · have hk1 : 1 ≤ decExpQ q := by omega
    have hfmt : fmtNN q =
        natDigits (q.num.toNat * 10 ^ decExpQ q / q.den / 10 ^ decExpQ q) ++
          '.' :: padZeros (decExpQ q)
            (natDigits (q.num.toNat * 10 ^ decExpQ q / q.den % 10 ^ decExpQ q)) := by
      unfold fmtNN
      rw [if_neg hk0]
    have hmodlt : q.num.toNat * 10 ^ decExpQ q / q.den % 10 ^ decExpQ q
        < 10 ^ decExpQ q := Nat.mod_lt _ (by positivity)
    have hblen : (padZeros (decExpQ q)
        (natDigits (q.num.toNat * 10 ^ decExpQ q / q.den % 10 ^ decExpQ q))).length
        = decExpQ q :=
      padZeros_length _ _ (natDigits_length hk1 hmodlt)
    have hbne : padZeros (decExpQ q)
        (natDigits (q.num.toNat * 10 ^ decExpQ q / q.den % 10 ^ decExpQ q)) ≠ [] := by
      refine List.length_pos.mp ?_
      rw [hblen]
      omega
    constructor
    · rw [hfmt]
      exact Or.inr ⟨_, _, rfl, natDigits_ne_nil _, hbne, natDigits_digits _,
        padZeros_digits _ _ (natDigits_digits _)⟩
    · rw [hfmt, parseDecBody_dot _ _ (natDigits_ne_nil _) (natDigits_digits _)
        (padZeros_digits _ _ (natDigits_digits _))]
      rw [hblen, valDigits_natDigits, valDigits_padZeros, valDigits_natDigits]
      have hnum : (↑(q.num.toNat * 10 ^ decExpQ q / q.den / 10 ^ decExpQ q)
            * (10 : ℤ) ^ decExpQ q
            + ↑(q.num.toNat * 10 ^ decExpQ q / q.den % 10 ^ decExpQ q) : ℤ)
          = ↑(q.num.toNat * 10 ^ decExpQ q / q.den) := by
        exact_mod_cast
          Nat.div_add_mod' (q.num.toNat * 10 ^ decExpQ q / q.den) (10 ^ decExpQ q)
      rw [hnum]
      exact congrArg some (mkRat_scaled q (decExpQ q) hdvd hnn)

/-! ## Trim and string plumbing lemmas -/

theorem stripRNrev_head_ne (l : List Char) (h : l.head? ≠ some '\n') :
    stripRNrev l = l := by
  match l with
  | [] => rfl
  | [c] => rfl
  | c1 :: c2 :: rest =>
    show (if c1 = '\n' ∧ c2 = '\r' then stripRNrev rest else c1 :: c2 :: rest) = _
    rw [if_neg (fun hc => h (by rw [show c1 = '\n' from hc.1]; rfl))]

/-- Trimming `"\r\n"` from a string that ends in exactly one `"\r\n"`. -/
theorem trimCrlf_once (x : List Char) (h : x.reverse.head? ≠ some '\n') :
    trimCrlf (String.mk (x ++ ['\r', '\n'])) = String.mk x := by
  unfold trimCrlf
  congr 1
  show (stripRNrev ((x ++ ['\r', '\n']).reverse)).reverse = x
  rw [List.reverse_append]
  rw [show stripRNrev (['\r', '\n'].reverse ++ x.reverse) = stripRNrev x.reverse from by
    show (if ('\n' = '\n' ∧ '\r' = '\r') then stripRNrev x.reverse else _) = _
    rw [if_pos ⟨rfl, rfl⟩]]
  rw [stripRNrev_head_ne _ h, List.reverse_reverse]

/-! ## Claim C2 (amended) — the encode/decode round trip on its domain -/

/-- C2 (amended): decoding the trimmed wire encoding returns the command
again for every non-`Unknown` variant whose `MoveAz` payload (if any) is a
non-negative integer value (i.e. displays as a plain digit string). -/
theorem c2_roundtrip_amended (c : ATDomeCmd) (hne : c ≠ .Unknown)
    (hmv : ∀ az, c = .MoveAz az → azIsNatB az = true) :
    into_atdome_cmd (trimCrlf c.get_command) = some c := by
  cases c with
  | Unknown => exact absurd rfl hne
  | CloseShutter => decide
  | OpenShutter => decide
  | StopMotion => decide
  | HomeAzimuth => decide
  | OpenShutterDropoutDoor => decide
  | CloseShutterDropoutDoor => decide
  | OpenShutterMainDoor => decide
  | CloseShutterMainDoor => decide
  | GetStatus => decide
  | MoveAz az =>
    have haz := hmv az rfl
    rcases Bool.and_eq_true_iff.mp haz with ⟨hden, hnump⟩
    have hden1 : az.den = 1 := by simpa using hden
    have hnn : 0 ≤ az.num := of_decide_eq_true hnump
    have hz : qLt az 0 = false := by
      have hq0 : 0 ≤ az := Rat.num_nonneg.mp hnn
      cases hq : qLt az 0 with
      | false => rfl
      | true => exact absurd ((qLt_eq az 0).mp hq) (not_lt.mpr hq0)
    have hfmt : fmtF32 az = String.mk (natDigits az.num.toNat) := by
      unfold fmtF32 fmtNN
      rw [hz, decExpQ_den_one az hden1, hden1]
      simp
    show into_atdome_cmd (trimCrlf (fmtF32 az ++ " MV\r\n")) = some (.MoveAz az)
    rw [hfmt]
    have hstr : String.mk (natDigits az.num.toNat) ++ " MV\r\n"
        = String.mk ((natDigits az.num.toNat ++ " MV".data) ++ ['\r', '\n']) := by
      show String.mk (natDigits az.num.toNat ++ " MV\r\n".data) = _
      rw [show " MV\r\n".data = " MV".data ++ ['\r', '\n'] from rfl, ← List.append_assoc]
    rw [hstr, trimCrlf_once _ (by
      rw [List.reverse_append]
      simp)]
    have hds_d : ∀ ch ∈ natDigits az.num.toNat, isDigitC ch = true := natDigits_digits _
    have hre := reFind_moveaz (natDigits az.num.toNat) hds_d
    have hmatch : getMatchIndex (String.mk (natDigits az.num.toNat ++ " MV".data))
        = some 0 := by
      unfold getMatchIndex
      rw [List.range_succ_eq_map]
      rw [List.find?_cons_of_pos _ (by
        show reIsMatch (cmdPatterns.getD 0 []) _ = true
        rw [show cmdPatterns.getD 0 [] = moveAzPat from rfl]
        unfold reIsMatch reFindS
        rw [show (String.mk (natDigits az.num.toNat ++ " MV".data)).data
          = natDigits az.num.toNat ++ " MV".data from rfl, hre]
        rfl)]
    unfold into_atdome_cmd
    rw [hmatch]
    dsimp only
    rw [show reFindS moveAzPat (String.mk (natDigits az.num.toNat ++ " MV".data))
      = some [some (natDigits az.num.toNat)] from hre]
    dsimp only
    obtain ⟨c0, cs0, hds_eq, hc0⟩ : ∃ c0 cs0,
        natDigits az.num.toNat = c0 :: cs0 ∧ isDigitC c0 = true := by
      cases hp : natDigits az.num.toNat with
      | nil => exact absurd hp (natDigits_ne_nil _)
      | cons c0 cs0 =>
        exact ⟨c0, cs0, rfl, natDigits_digits _ c0 (hp ▸ List.mem_cons_self c0 cs0)⟩
    rw [hds_eq]
    rw [show ([some (c0 :: cs0)].getD 0 none) = some (c0 :: cs0) from rfl]
    dsimp only
    rw [parseF32M_digit_head c0 cs0 hc0, ← hds_eq,
      parseDecBody_digits _ (natDigits_ne_nil _) hds_d, valDigits_natDigits]
    have hval : mkRat (↑az.num.toNat) 1 = az := by
      rw [Rat.mkRat_one]
      have h1 : ((az.num.toNat : ℤ) : ℚ) = (az.num : ℚ) := by
        exact_mod_cast congrArg (fun z : ℤ => (z : ℚ)) (Int.toNat_of_nonneg hnn)
      have h2 : ((az.num : ℚ)) = az := by
        conv_rhs => rw [← Rat.num_div_den az]
        rw [hden1]
        simp
      rw [← h2, ← h1]
      rfl
    rw [hval]

/-- C2 (witness): the round trip at `CloseShutter`. -/
theorem c2_witness :
    into_atdome_cmd (trimCrlf (ATDomeCmd.CloseShutter.get_command))
      = some ATDomeCmd.CloseShutter :=
  c2_roundtrip_amended .CloseShutter (by decide) (fun az h => nomatch h)

/-! ## Splitting the rendered status string back into its lines -/

theorem fmtF32_nonneg (q : ℚ) (h : qLt q 0 = false) :
    fmtF32 q = String.mk (fmtNN q) := by
  unfold fmtF32
  rw [h]
  rfl

theorem NumShape_no_nl (d : List Char) (h : NumShape d) : '\n' ∉ d := by
  intro hm
  rcases h with ⟨_, hd⟩ | ⟨a, b, heq, _, _, hda, hdb⟩
  · exact absurd (hd _ hm) (by decide)
  · subst heq
    rcases List.mem_append.mp hm with hma | hmb
    · exact absurd (hda _ hma) (by decide)
    · rcases List.mem_cons.mp hmb with hdot | hmb
      · exact absurd hdot (by decide)
      · exact absurd (hdb _ hmb) (by decide)

theorem foldl_append_data (ls : List String) : ∀ a : String,
    (ls.foldl (· ++ ·) a).data = a.data ++ (ls.map String.data).join := by
  induction ls with
  | nil => intro a; simp
  | cons x t ih =>
    intro a
    rw [List.foldl_cons, ih (a ++ x)]
    show (a.data ++ x.data) ++ (t.map String.data).join = _
    rw [List.append_assoc]
    rfl

theorem string_join_data (ls : List String) :
    (String.join ls).data = (ls.map String.data).join := by
  rw [show String.join ls = ls.foldl (· ++ ·) "" from rfl, foldl_append_data]
  rfl

theorem splitNlL_append_nl (l : List Char) (rest : List Char) (h : '\n' ∉ l) :
    splitNlL (l ++ '\n' :: rest) = l :: splitNlL rest := by
  induction l with
  | nil =>
    show splitNlL ('\n' :: rest) = [] :: splitNlL rest
    conv_lhs => rw [splitNlL]
    rw [if_pos rfl]
  | cons c cs ih =>
    show splitNlL (c :: (cs ++ '\n' :: rest)) = (c :: cs) :: splitNlL rest
    conv_lhs => rw [splitNlL]
    rw [if_neg (fun hc => h (List.mem_cons.mpr (Or.inl hc.symm)))]
    rw [ih (fun hm => h (List.mem_cons_of_mem c hm))]

theorem splitNlL_join_nl : ∀ (ds : List (List Char)), (∀ d ∈ ds, '\n' ∉ d) →
    splitNlL ((ds.map (fun d => d ++ ['\n'])).join) = ds ++ [[]] := by
  intro ds
  induction ds with
  | nil => intro _; rfl
  | cons d t ih =>
    intro h
    show splitNlL ((d ++ ['\n']) ++ (t.map (fun d => d ++ ['\n'])).join) = (d :: t) ++ [[]]
    rw [List.append_assoc]
    show splitNlL (d ++ '\n' :: (t.map (fun d => d ++ ['\n'])).join) = _
    rw [splitNlL_append_nl d _ (h d (List.mem_cons_self d t))]
    rw [ih (fun x hx => h x (List.mem_cons_of_mem d hx))]
    rfl

theorem map_mk_data (ls : List String) : (ls.map String.data).map String.mk = ls := by
  induction ls with
  | nil => rfl
  | cons a t ih =>
    rw [List.map_cons, List.map_cons, ih]

/-- Splitting the rendered `Status` string on `'\n'` recovers the 27
template lines plus the empty trailer. -/
theorem splitNl_as_string (s : Status)
    (hz1 : qLt s.az_pos 0 = false) (hz2 : qLt s.last_azimuth_goto 0 = false)
    (hs1 : NumShape (fmtNN s.az_pos)) (hs2 : NumShape (fmtNN s.last_azimuth_goto)) :
    splitNl (Status.as_string s) = statusLines s ++ [""] := by
  have hnl : ∀ d ∈ (statusLines s).map String.data, '\n' ∉ d := by
    intro d hd
    simp only [statusLines, List.map_cons, List.map_nil, List.mem_cons,
      List.not_mem_nil, or_false] at hd
    rcases hd with rfl|rfl|rfl|rfl|rfl|rfl|rfl|rfl|rfl|rfl|rfl|rfl|rfl|rfl|rfl|rfl|rfl|rfl|rfl|rfl|rfl|rfl|rfl|rfl|rfl|rfl|rfl
    all_goals try decide
    · rw [fmtF32_nonneg _ hz1]
      rw [show ("POSN " ++ String.mk (fmtNN s.az_pos)).data
        = "POSN ".data ++ fmtNN s.az_pos from rfl]
      intro hm
      rcases List.mem_append.mp hm with hm | hm
      · exact absurd hm (by decide)
      · exact NumShape_no_nl _ hs1 hm
    · rw [show ("-- " ++ String.mk (pad3 s.move_code)).data
        = "-- ".data ++ pad3 s.move_code from rfl]
      intro hm
      rcases List.mem_append.mp hm with hm | hm
      · exact absurd hm (by decide)
      · exact absurd (pad3_digits s.move_code _ hm) (by decide)
    · rw [fmtF32_nonneg _ hz2]
      rw [show ("Last Azimuth GoTo: " ++ String.mk (fmtNN s.last_azimuth_goto)).data
        = "Last Azimuth GoTo: ".data ++ fmtNN s.last_azimuth_goto from rfl]
      intro hm
      rcases List.mem_append.mp hm with hm | hm
      · exact absurd hm (by decide)
      · exact NumShape_no_nl _ hs2 hm
  unfold splitNl Status.as_string
  rw [string_join_data]
  rw [show ((statusLines s).map (fun l => l ++ "\n")).map String.data
      = ((statusLines s).map String.data).map (fun d => d ++ ['\n']) from by
    rw [List.map_map, List.map_map]
    rfl]
  rw [splitNlL_join_nl _ hnl, List.map_append, map_mk_data]
  rfl

/-! ## The three live-field line parses of the C3 round trip -/

theorem unwrap_azpos_str (q : ℚ) (hf : isF32DecNN q = true) (hz : qLt q 0 = false) :
    unwrapCapture parseStringM ("POSN " ++ fmtF32 q) azPosMatchPat 1
      = Except.ok "POSN" := by
  obtain ⟨hshape, _⟩ := fmtNN_num q hf
  rw [fmtF32_nonneg q hz]
  unfold unwrapCapture
  rw [show reFindS azPosMatchPat ("POSN " ++ String.mk (fmtNN q))
    = some [some "POSN".data, some (fmtNN q)] from reFind_azpos _ hshape]
  rfl

theorem unwrap_azpos_val (q : ℚ) (hf : isF32DecNN q = true) (hz : qLt q 0 = false) :
    unwrapCapture parseF32M ("POSN " ++ fmtF32 q) azPosMatchPat 2
      = Except.ok q := by
  obtain ⟨hshape, hparse⟩ := fmtNN_num q hf
  rw [fmtF32_nonneg q hz]
  unfold unwrapCapture
  rw [show reFindS azPosMatchPat ("POSN " ++ String.mk (fmtNN q))
    = some [some "POSN".data, some (fmtNN q)] from reFind_azpos _ hshape]
  dsimp only
  rw [show ([some "POSN".data, some (fmtNN q)].getD (2 - 1) none)
    = some (fmtNN q) from rfl]
  dsimp only
  obtain ⟨c, cs, heq, hc⟩ := NumShape_head _ hshape
  rw [heq, parseF32M_digit_head c cs hc, ← heq, hparse]

theorem unwrap_movecode_line (n : Nat) (hn : n < 256) :
    unwrapCapture parseU8M ("-- " ++ String.mk (pad3 n)) moveCodePat 1
      = Except.ok n := by
  unfold unwrapCapture
  rw [show reFindS moveCodePat ("-- " ++ String.mk (pad3 n))
    = some [some (pad3 n)] from reFind_movecode n]
  dsimp only
  rw [show ([some (pad3 n)].getD (1 - 1) none) = some (pad3 n) from rfl]
  dsimp only
  have hp : parseU8M (String.mk (pad3 n)) = some n := by
    unfold parseU8M parseUIntM
    rw [if_pos (by
      have h1 : (String.mk (pad3 n)).data = pad3 n := rfl
      simp only [h1, Bool.and_eq_true, decide_eq_true_eq, List.all_eq_true,
        valDigits_pad3]
      exact ⟨⟨pad3_ne_nil n, pad3_digits n⟩, hn⟩)]
    rw [show (String.mk (pad3 n)).data = pad3 n from rfl, valDigits_pad3]
  rw [hp]

theorem unwrap_goto_val (q : ℚ) (hf : isF32DecNN q = true) (hz : qLt q 0 = false) :
    unwrapCapture parseF32M ("Last Azimuth GoTo: " ++ fmtF32 q) lastAzimuthGotoPat 1
      = Except.ok q := by
  obtain ⟨hshape, hparse⟩ := fmtNN_num q hf
  rw [fmtF32_nonneg q hz]
  unfold unwrapCapture
  rw [show reFindS lastAzimuthGotoPat ("Last Azimuth GoTo: " ++ String.mk (fmtNN q))
    = some [some (fmtNN q)] from reFind_lit_sp_num "Last Azimuth GoTo:".data _ hshape]
  dsimp only
  rw [show ([some (fmtNN q)].getD (1 - 1) none) = some (fmtNN q) from rfl]
  dsimp only
  obtain ⟨c, cs, heq, hc⟩ := NumShape_head _ hshape
  rw [heq, parseF32M_digit_head c cs hc, ← heq, hparse]

set_option maxHeartbeats 3200000 in
/-- C3 (amended): for every `Status` whose `az_pos` and `last_azimuth_goto`
are non-negative finite decimal values and whose `move_code` fits a `u8`,
splitting `as_string` on newlines and parsing with `make_status` succeeds
and yields exactly the `Status` agreeing with `s` on `az_pos`,
`last_azimuth_goto` and `move_code`, every other field being the constant
the renderer emits. -/
theorem c3_roundtrip_amended (s : Status)
    (h1 : isF32DecNN s.az_pos = true)
    (h2 : isF32DecNN s.last_azimuth_goto = true)
    (h3 : s.move_code < 256) :
    make_status (splitNl (Status.as_string s))
    = Except.ok (roundTripExpected s) := by
  obtain ⟨hz1, _⟩ := isF32DecNN_parts h1
  obtain ⟨hz2, _⟩ := isF32DecNN_parts h2
  rw [splitNl_as_string s hz1 hz2 (fmtNN_num _ h1).1 (fmtNN_num _ h2).1]
  unfold make_status
  rw [if_neg (fun hcon => hcon.2 rfl)]
  rw [show unwrapCapture parseF32M ((statusLines s ++ [""]).getD 0 "") mainPat 1
    = Except.ok (0 : ℚ) from rfl, exceptBindOk]
  rw [show unwrapCapture parseF32M ((statusLines s ++ [""]).getD 1 "") dropPat 1
    = Except.ok (0 : ℚ) from rfl, exceptBindOk]
  rw [show unwrapCapture parseStringM ((statusLines s ++ [""]).getD 2 "") autoShutdownPat 1
    = Except.ok "OFF" from rfl, exceptBindOk]
  rw [show unwrapCapture parseUsizeM ((statusLines s ++ [""]).getD 2 "") autoShutdownPat 2
    = Except.ok (0 : Nat) from rfl, exceptBindOk]
  rw [show (statusLines s ++ [""]).getD 3 "" = "POSN " ++ fmtF32 s.az_pos from rfl]
  rw [unwrap_azpos_str s.az_pos h1 hz1, exceptBindOk]
  rw [unwrap_azpos_val s.az_pos h1 hz1, exceptBindOk]
  rw [show (statusLines s ++ [""]).getD 4 ""
    = "-- " ++ String.mk (pad3 s.move_code) from rfl]
  rw [unwrap_movecode_line s.move_code h3, exceptBindOk]
  rw [show hasGroup ((statusLines s ++ [""]).getD 5 "") azHomedPat 1
    = Except.ok true from rfl, exceptBindOk]
  rw [show unwrapCapture parseUsizeM ((statusLines s ++ [""]).getD 6 "") estopActivePat 1
    = Except.ok (0 : Nat) from rfl, exceptBindOk]
  rw [show unwrapCapture parseUsizeM ((statusLines s ++ [""]).getD 7 "") scbLinkOkPat 1
    = Except.ok (1 : Nat) from rfl, exceptBindOk]
  rw [show unwrapCapture parseF32M ((statusLines s ++ [""]).getD 8 "") homeAzimuthPat 1
    = Except.ok (10 : ℚ) from rfl, exceptBindOk]
  rw [show unwrapCapture parseF32M ((statusLines s ++ [""]).getD 9 "") highSpeedPat 1
    = Except.ok (5 : ℚ) from rfl, exceptBindOk]
  rw [show unwrapCapture parseF32M ((statusLines s ++ [""]).getD 10 "") coastPat 1
    = Except.ok (qDec 5 1) from rfl, exceptBindOk]
  rw [show unwrapCapture parseF32M ((statusLines s ++ [""]).getD 11 "") tolerancePat 1
    = Except.ok (1 : ℚ) from rfl, exceptBindOk]
  rw [show unwrapCapture parseU64M ((statusLines s ++ [""]).getD 12 "") encoderCountsPer360Pat 1
    = Except.ok (4018143232 : Nat) from rfl, exceptBindOk]
  rw [show unwrapCapture parseU64M ((statusLines s ++ [""]).getD 13 "") encoderCountsPat 1
    = Except.ok (111615089 : Nat) from rfl, exceptBindOk]
  rw [show (statusLines s ++ [""]).getD 14 ""
    = "Last Azimuth GoTo: " ++ fmtF32 s.last_azimuth_goto from rfl]
  rw [unwrap_goto_val s.last_azimuth_goto h2 hz2, exceptBindOk]
  rw [show unwrapCapture parseF32M ((statusLines s ++ [""]).getD 15 "") azimuthMoveTimeoutPat 1
    = Except.ok (120 : ℚ) from rfl, exceptBindOk]
  rw [show unwrapCapture parseUsizeM ((statusLines s ++ [""]).getD 16 "") rainSensorEnabledPat 1
    = Except.ok (1 : Nat) from rfl, exceptBindOk]
  rw [show unwrapCapture parseUsizeM ((statusLines s ++ [""]).getD 17 "") cloudSensorEnabledPat 1
    = Except.ok (1 : Nat) from rfl, exceptBindOk]
  rw [show unwrapCapture parseF32M ((statusLines s ++ [""]).getD 18 "") watchdogTimerPat 1
    = Except.ok (600 : ℚ) from rfl, exceptBindOk]
  rw [show unwrapCapture parseF32M ((statusLines s ++ [""]).getD 19 "") dropoutTimerPat 1
    = Except.ok (5 : ℚ) from rfl, exceptBindOk]
  rw [show unwrapCapture parseF32M ((statusLines s ++ [""]).getD 20 "") reversalDelayPat 1
    = Except.ok (4 : ℚ) from rfl, exceptBindOk]
  rw [show unwrapCapture parseU64M ((statusLines s ++ [""]).getD 21 "") mainDoorEncoderClosedPat 1
    = Except.ok (118449181478 : Nat) from rfl, exceptBindOk]
  rw [show unwrapCapture parseU64M ((statusLines s ++ [""]).getD 22 "") mainDoorEncoderOpenedPat 1
    = Except.ok (8287616388 : Nat) from rfl, exceptBindOk]
  rw [show unwrapCapture parseU64M ((statusLines s ++ [""]).getD 23 "") dropoutDoorEncoderClosedPat 1
    = Except.ok (5669776578 : Nat) from rfl, exceptBindOk]
  rw [show unwrapCapture parseU64M ((statusLines s ++ [""]).getD 24 "") dropoutDoorEncoderOpenedPat 1
    = Except.ok (5710996184 : Nat) from rfl, exceptBindOk]
  rw [show unwrapCapture parseF32M ((statusLines s ++ [""]).getD 25 "") doorMoveTimeoutPat 1
    = Except.ok (360 : ℚ) from rfl, exceptBindOk]
  rfl

/-- C3 (witness): the round trip at the default `Status`. -/
theorem c3_witness :
    make_status (splitNl (Status.as_string Status.default))
      = Except.ok (roundTripExpected Status.default) :=
  c3_roundtrip_amended Status.default (by decide) (by decide) (by decide)
